import Mathlib

/-!
USBPre PIC initialisation: the monitor daemon and the one-shot tool.

A shallow embedding of `Source/daemon/usbpre_monitor_daemon.c` and
`Source/cli/usbpre_init.c`.

Both programs are sequential C code whose only interesting behaviour is the
order of the calls they make into the host (IOKit, CoreFoundation, libc) and
the way the results of those calls steer the control flow.  The embedding is
therefore a state-passing one:

* the state (`World`) holds the daemon's global `initialization_in_progress`,
  the list of everything the host will answer (`answers`, indexed by the
  number of result-bearing calls made so far, `asked`), and the `trace` of
  calls made so far, oldest first;
* a C function becomes a `Prog α`, a function from a `World` to an optional
  result and the `World` it leaves behind.  The result is `none` when the C
  code dereferences a NULL interface pointer, after which nothing is defined.

Every theorem quantifies over the whole `World`, hence over every possible
answer of the host to every call.

The daemon is embedded a second time in `Reentrant`, on a host that may run code
of its own while the daemon is inside a call; this is where what another
callback would see of the flag during a run is stated.
-/

namespace UsbPre

/-! ## C types and constants -/

/-- The C type `IOReturn` (`kern_return_t`, an `int`); only compared with zero. -/
abbrev IOReturn := Int

/-- The C type `io_service_t` (a mach port name); `0` is `IO_OBJECT_NULL`. -/
abbrev io_service_t := Nat

/-- Any C pointer; `0` is `NULL`. -/
abbrev Ptr := Nat

def kIOReturnSuccess : IOReturn := 0

def KERN_SUCCESS : IOReturn := 0

def IO_OBJECT_NULL : io_service_t := 0

def NULL : Ptr := 0

def USBPRE_VENDOR_ID : Int := 0x0926

def USBPRE_PRODUCT_ID : Int := 0x0100

/-- Priority `LOG_ERR` of `<syslog.h>`. -/
def LOG_ERR : Nat := 3

/-- Priority `LOG_NOTICE` of `<syslog.h>`. -/
def LOG_NOTICE : Nat := 5

/-- Priority `LOG_INFO` of `<syslog.h>`. -/
def LOG_INFO : Nat := 6

/-- Modelled from the spec: the enumerator `kUSBOut` of IOKit's `USB.h`, which is not
part of the sources; direction host-to-device is bit 7 clear. -/
def kUSBOut : Nat := 0

/-- Modelled from the spec: the enumerator `kUSBVendor` of IOKit's `USB.h`, which is not
part of the sources; request type vendor is the value 2 of the two type bits. -/
def kUSBVendor : Nat := 2

/-- Modelled from the spec: the enumerator `kUSBDevice` of IOKit's `USB.h`, which is not
part of the sources; recipient device is the value 0 of the five recipient bits. -/
def kUSBDevice : Nat := 0

/-- Modelled from the spec: the function-like C preprocessor definition
`USBmakebmRequestType` of IOKit's `USB.h`, which is not part of the sources.  It
packs the USB `bmRequestType` byte: direction in bit 7, type in bits 6..5, recipient
in bits 4..0 (the spec: "direction host→device, type vendor, recipient device"; the
tool's comment: "bmRequestType: 0x40 (Host-to-device, Vendor, Device)"). -/
def USBmakebmRequestType (direction type recipient : Nat) : Nat :=
  ((direction &&& 1) <<< 7) ||| ((type &&& 3) <<< 5) ||| (recipient &&& 0x1F)

/-- The C struct `IOUSBDevRequest`.  `pData` points to a one-byte buffer (the local
`data`); the model stores the byte the pointer leads to at the time of the call.
The output-only field `wLenDone` is never read by the sources and is left out. -/
structure IOUSBDevRequest where
  bmRequestType : Nat
  bRequest : Nat
  wValue : Nat
  wIndex : Nat
  wLength : Nat
  pData : Nat
deriving DecidableEq

/-! ## The observable trace -/

/-- One call into the host, with its arguments and, where the sources use it, its
result.  Accesses to the `volatile` global are observable too. -/
inductive Event where
  | syslog (priority : Nat) (format : String) (args : List Int)
  | printf (text : String)
  | fprintf_stderr (text : String)
  | sleep (seconds : Nat)
  | load_initialization_in_progress (value : Int)
  | store_initialization_in_progress (value : Int)
  | IOCreatePlugInInterfaceForService (device : io_service_t) (kr : IOReturn) (plugIn : Ptr)
  | QueryInterface (plugIn : Ptr) (kr : IOReturn) (deviceInterface : Ptr)
  | PlugInRelease (plugIn : Ptr)
  | USBDeviceOpen (dev : Ptr) (kr : IOReturn)
  | DeviceRequest (dev : Ptr) (request : IOUSBDevRequest) (kr : IOReturn)
  | USBDeviceClose (dev : Ptr)
  | DeviceRelease (dev : Ptr)
  | IOIteratorNext (device : io_service_t)
  | IOObjectRelease (object : io_service_t)
  | IOServiceMatching (dict : Ptr)
  | CFNumberCreate (value : Int)
  | CFDictionarySetValue (dict : Ptr) (key : String) (value : Int)
  | CFRelease (value : Int)
  | IOServiceGetMatchingService (dict : Ptr) (service : io_service_t)
deriving DecidableEq

/-- What the host answers to one call: the return code and the value the call
leaves in its out-parameter (or returns as a pointer or object). -/
structure Answer where
  ret : IOReturn
  out : Nat

/-- The state of the process and of the host it talks to. -/
structure World where
  initialization_in_progress : Int
  answers : Nat → Answer
  asked : Nat
  trace : List Event

/-- A C function body: from a state to its result (`none` after a NULL dereference)
and the state it leaves. -/
def Prog (α : Type) : Type := World → Option α × World

namespace Prog

def ret {α : Type} (a : α) : Prog α := fun w => (some a, w)

def andThen {α β : Type} (m : Prog α) (f : α → Prog β) : Prog β := fun w =>
  match m w with
  | (some a, w1) => f a w1
  | (none, w1) => (none, w1)

end Prog

instance : Monad Prog where
  pure := Prog.ret
  bind := Prog.andThen

/-- Record one call in the trace. -/
def emit (e : Event) : Prog Unit := fun w =>
  (some (), { w with trace := w.trace ++ [e] })

/-- Take the host's answer to the next result-bearing call. -/
def ask : Prog Answer := fun w =>
  (some (w.answers w.asked), { w with asked := w.asked + 1 })

/-- Undefined behaviour: the program does not continue. -/
def fault {α : Type} : Prog α := fun w => (none, w)

/-- The dereference `(*p)` of an interface pointer, undefined when `p` is `NULL`. -/
def deref (p : Ptr) : Prog Unit :=
  if p = NULL then fault else pure ()

/-! ## Host calls -/

def syslog (priority : Nat) (format : String) (args : List Int) : Prog Unit :=
  emit (.syslog priority format args)

def printf (text : String) : Prog Unit := emit (.printf text)

def fprintf_stderr (text : String) : Prog Unit := emit (.fprintf_stderr text)

def sleep (seconds : Nat) : Prog Unit := emit (.sleep seconds)

/-- Read of the daemon's `static volatile int initialization_in_progress`. -/
def load_initialization_in_progress : Prog Int := fun w =>
  (some w.initialization_in_progress,
   { w with trace := w.trace ++ [.load_initialization_in_progress w.initialization_in_progress] })

/-- Write of the daemon's `static volatile int initialization_in_progress`. -/
def store_initialization_in_progress (value : Int) : Prog Unit := fun w =>
  (some (), { w with initialization_in_progress := value, trace := w.trace ++
    [.store_initialization_in_progress value] })

/-- The call `IOCreatePlugInInterfaceForService(device, ..., &plugIn, &score)`: the
return code and the value of `plugIn` after the call (it was `NULL` before). -/
def IOCreatePlugInInterfaceForService (device : io_service_t) : Prog (IOReturn × Ptr) := do
  let a ← ask
  emit (.IOCreatePlugInInterfaceForService device a.ret a.out)
  pure (a.ret, a.out)

/-- The call `(*plugIn)->QueryInterface(plugIn, ..., &dev)`: the return code and the
value of `dev` after the call (it was `NULL` before). -/
def QueryInterface (plugIn : Ptr) : Prog (IOReturn × Ptr) := do
  deref plugIn
  let a ← ask
  emit (.QueryInterface plugIn a.ret a.out)
  pure (a.ret, a.out)

/-- The call `(*plugIn)->Release(plugIn)`. -/
def PlugInRelease (plugIn : Ptr) : Prog Unit := do
  deref plugIn
  emit (.PlugInRelease plugIn)

/-- The call `(*dev)->USBDeviceOpen(dev)`. -/
def USBDeviceOpen (dev : Ptr) : Prog IOReturn := do
  deref dev
  let a ← ask
  emit (.USBDeviceOpen dev a.ret)
  pure a.ret

/-- The call `(*dev)->DeviceRequest(dev, &request)`.  The host reads the request and
the byte behind `pData`; of the structure it writes `wLenDone` only. -/
def DeviceRequest (dev : Ptr) (request : IOUSBDevRequest) : Prog IOReturn := do
  deref dev
  let a ← ask
  emit (.DeviceRequest dev request a.ret)
  pure a.ret

/-- The call `(*dev)->USBDeviceClose(dev)`; the sources ignore its result. -/
def USBDeviceClose (dev : Ptr) : Prog Unit := do
  deref dev
  emit (.USBDeviceClose dev)

/-- The call `(*dev)->Release(dev)`. -/
def DeviceRelease (dev : Ptr) : Prog Unit := do
  deref dev
  emit (.DeviceRelease dev)

def IOObjectRelease (object : io_service_t) : Prog Unit := emit (.IOObjectRelease object)

/-- The call `IOServiceMatching(kIOUSBDeviceClassName)`: the dictionary or `NULL`. -/
def IOServiceMatching : Prog Ptr := do
  let a ← ask
  emit (.IOServiceMatching a.out)
  pure a.out

/-- The call `CFNumberCreate(kCFAllocatorDefault, kCFNumberSInt32Type, &value)`.  The
number object is identified with the value it holds; allocation failure is not
modelled. -/
def CFNumberCreate (value : Int) : Prog Int := do
  emit (.CFNumberCreate value)
  pure value

def CFDictionarySetValue (dict : Ptr) (key : String) (value : Int) : Prog Unit :=
  emit (.CFDictionarySetValue dict key value)

def CFRelease (value : Int) : Prog Unit := emit (.CFRelease value)

/-- The call `IOServiceGetMatchingService(kIOMainPortDefault, match)`: the first
matching service or `IO_OBJECT_NULL`. -/
def IOServiceGetMatchingService (dict : Ptr) : Prog io_service_t := do
  let a ← ask
  emit (.IOServiceGetMatchingService dict a.out)
  pure a.out

/-! ## The monitor daemon (`Source/daemon/usbpre_monitor_daemon.c`) -/

namespace Daemon

/-- The C function `InitializePICController`: send the two PIC commands. -/
def InitializePICController (dev : Ptr) : Prog IOReturn := do
  syslog LOG_NOTICE "USBPre: Starting PIC initialization" []
  -- Command 1: Initialize PIC
  let data := 0x81
  let request : IOUSBDevRequest :=
    { bmRequestType := USBmakebmRequestType kUSBOut kUSBVendor kUSBDevice
      bRequest := 0x01
      wValue := 0x00F0
      wIndex := 0x01F0
      wLength := 1
      pData := data }
  let result ← DeviceRequest dev request
  if result ≠ kIOReturnSuccess then do
    syslog LOG_ERR "USBPre: Command 1 failed: 0x%08x" [result]
    pure result
  else do
    syslog LOG_INFO "USBPre: Command 1 (0x81) succeeded" []
    -- Wait 5 seconds (as observed in Windows driver)
    sleep 5
    -- Command 2: Activate PIC
    let data := 0xC0
    let request : IOUSBDevRequest :=
      { request with wValue := 0x00F0, wIndex := 0x01F0, wLength := 1, pData := data }
    let result ← DeviceRequest dev request
    if result ≠ kIOReturnSuccess then do
      syslog LOG_ERR "USBPre: Command 2 failed: 0x%08x" [result]
      pure result
    else do
      syslog LOG_NOTICE "USBPre: PIC initialization complete (Command 2: 0xC0)" []
      pure kIOReturnSuccess

/-- The C function `InitializeUSBPreDevice`: open the device and send the
initialization commands, under the global flag. -/
def InitializeUSBPreDevice (device : io_service_t) : Prog Unit := do
  -- Prevent concurrent initialization
  let flag ← load_initialization_in_progress
  if flag ≠ 0 then do
    syslog LOG_INFO "USBPre: Initialization already in progress, skipping" []
    pure ()
  else do
    store_initialization_in_progress 1
    syslog LOG_INFO "USBPre: Device detected, opening interface" []
    -- Create plugin interface
    let (kr, plugInInterface) ← IOCreatePlugInInterfaceForService device
    if kr ≠ KERN_SUCCESS ∨ plugInInterface = NULL then do
      syslog LOG_ERR "USBPre: Failed to create plugin interface: 0x%08x" [kr]
      store_initialization_in_progress 0
      pure ()
    else do
      -- Get device interface
      let (kr, deviceInterface) ← QueryInterface plugInInterface
      PlugInRelease plugInInterface
      if kr ≠ KERN_SUCCESS ∨ deviceInterface = NULL then do
        syslog LOG_ERR "USBPre: Failed to get device interface: 0x%08x" [kr]
        store_initialization_in_progress 0
        pure ()
      else do
        -- Open device
        let kr ← USBDeviceOpen deviceInterface
        if kr ≠ kIOReturnSuccess then do
          syslog LOG_ERR "USBPre: Failed to open device: 0x%08x" [kr]
          DeviceRelease deviceInterface
          store_initialization_in_progress 0
          pure ()
        else do
          -- Send PIC initialization commands
          let kr ← InitializePICController deviceInterface
          -- Clean up
          USBDeviceClose deviceInterface
          DeviceRelease deviceInterface
          store_initialization_in_progress 0
          if kr = kIOReturnSuccess then
            syslog LOG_NOTICE "USBPre: Successfully initialized - device ready" []
          else
            syslog LOG_ERR "USBPre: Initialization failed: 0x%08x" [kr]

/-- The C function `DeviceAddedCallback`.  The iterator is the list of the objects
its successive `IOIteratorNext` calls yield; past its end, and at an
`IO_OBJECT_NULL` entry, `IOIteratorNext` yields `0` and the `while` loop ends. -/
def DeviceAddedCallback : List io_service_t → Prog Unit
  | [] => emit (.IOIteratorNext IO_OBJECT_NULL)
  | device :: iterator =>
    if device = IO_OBJECT_NULL then
      emit (.IOIteratorNext IO_OBJECT_NULL)
    else do
      emit (.IOIteratorNext device)
      syslog LOG_NOTICE "USBPre: Device arrival detected" []
      -- Small delay to let macOS settle
      sleep 1
      -- Initialize the device
      InitializeUSBPreDevice device
      -- Release this reference
      IOObjectRelease device
      DeviceAddedCallback iterator

/-- Serial delivery of arrival notifications, as done by the priming call in
`SetupDeviceMonitoring` followed by the run loop of `main`: the callback is invoked
once per notification and returns before it is invoked again. -/
def serialCallbacks : List (List io_service_t) → Prog Unit
  | [] => pure ()
  | iterator :: later => do
    DeviceAddedCallback iterator
    serialCallbacks later

end Daemon

/-! ## The one-shot tool (`Source/cli/usbpre_init.c`) -/

namespace Cli

/-- The C function `find_usbpre_device`. -/
def find_usbpre_device : Prog io_service_t := do
  let dict ← IOServiceMatching
  if dict = NULL then
    pure IO_OBJECT_NULL
  else do
    let vid := USBPRE_VENDOR_ID
    let pid := USBPRE_PRODUCT_ID
    let vidRef ← CFNumberCreate vid
    let pidRef ← CFNumberCreate pid
    -- the keys kUSBVendorID and kUSBProductID of IOKit are "idVendor" and "idProduct"
    CFDictionarySetValue dict "idVendor" vidRef
    CFDictionarySetValue dict "idProduct" pidRef
    CFRelease vidRef
    CFRelease pidRef
    IOServiceGetMatchingService dict

/-- The C function `open_device`; the result is the opened interface or `NULL`. -/
def open_device (device : io_service_t) : Prog Ptr := do
  let (kr, plugin) ← IOCreatePlugInInterfaceForService device
  if kr ≠ kIOReturnSuccess then
    pure NULL
  else do
    let (_, dev) ← QueryInterface plugin
    PlugInRelease plugin
    if dev ≠ NULL then do
      let kr ← USBDeviceOpen dev
      if kr ≠ kIOReturnSuccess then do
        DeviceRelease dev
        pure NULL
      else
        pure dev
    else
      pure dev

/-- The C function `send_pic_command`. -/
def send_pic_command (dev : Ptr) (data : Nat) : Prog IOReturn := do
  let req : IOUSBDevRequest :=
    { bmRequestType := USBmakebmRequestType kUSBOut kUSBVendor kUSBDevice
      bRequest := 0x01
      wValue := 0x00F0
      wIndex := 0x01F0
      wLength := 1
      pData := data }
  DeviceRequest dev req

/-- The C function `main` of the tool; the result is the exit code. -/
def main : Prog Int := do
  printf "USBPre PIC Initialization\n"
  printf "=========================\n\n"
  let device ← find_usbpre_device
  if device = IO_OBJECT_NULL then do
    fprintf_stderr "Error: USBPre not found. Is it plugged in?\n"
    pure 1
  else do
    printf "Found USBPre device\n"
    let dev ← open_device device
    IOObjectRelease device
    if dev = NULL then do
      fprintf_stderr "Error: Could not open device\n"
      pure 1
    else do
      printf "Sending initialization commands...\n"
      let r ← send_pic_command dev 0x81
      if r ≠ kIOReturnSuccess then do
        fprintf_stderr "Error: Command 1 failed\n"
        USBDeviceClose dev
        DeviceRelease dev
        pure 1
      else do
        printf "  Command 1 (0x81): OK\n"
        printf "  Waiting 5 seconds...\n"
        sleep 5
        let r ← send_pic_command dev 0xC0
        if r ≠ kIOReturnSuccess then do
          fprintf_stderr "Error: Command 2 failed\n"
          USBDeviceClose dev
          DeviceRelease dev
          pure 1
        else do
          printf "  Command 2 (0xC0): OK\n"
          USBDeviceClose dev
          DeviceRelease dev
          printf "\nSuccess! Device initialized.\n"
          printf "Buttons, LEDs, and phantom power should now work.\n"
          pure 0

end Cli

/-! ## The monitor daemon on a host that re-enters it

While the daemon is inside a call into the host, the host may run code of its own on
the daemon's state: deliver another arrival notification, which re-enters
`DeviceAddedCallback`, or merely look at the daemon's flag.  Here the daemon's three
functions are embedded once more, with that behaviour of the host as a parameter:
`host e` is what the host runs during the call recorded as `e`, before the call
returns.  With a host that runs nothing these are the functions of `Daemon`. -/

namespace Reentrant

/-- A call into the host: the call is recorded, then the host runs what it runs during
this call. -/
def during (host : Event → Prog Unit) (e : Event) : Prog Unit := do
  emit e
  host e

def syslog (host : Event → Prog Unit) (priority : Nat) (format : String)
    (args : List Int) : Prog Unit :=
  during host (.syslog priority format args)

def sleep (host : Event → Prog Unit) (seconds : Nat) : Prog Unit :=
  during host (.sleep seconds)

def IOCreatePlugInInterfaceForService (host : Event → Prog Unit)
    (device : io_service_t) : Prog (IOReturn × Ptr) := do
  let a ← ask
  during host (.IOCreatePlugInInterfaceForService device a.ret a.out)
  pure (a.ret, a.out)

def QueryInterface (host : Event → Prog Unit) (plugIn : Ptr) : Prog (IOReturn × Ptr) := do
  deref plugIn
  let a ← ask
  during host (.QueryInterface plugIn a.ret a.out)
  pure (a.ret, a.out)

def PlugInRelease (host : Event → Prog Unit) (plugIn : Ptr) : Prog Unit := do
  deref plugIn
  during host (.PlugInRelease plugIn)

def USBDeviceOpen (host : Event → Prog Unit) (dev : Ptr) : Prog IOReturn := do
  deref dev
  let a ← ask
  during host (.USBDeviceOpen dev a.ret)
  pure a.ret

def DeviceRequest (host : Event → Prog Unit) (dev : Ptr)
    (request : IOUSBDevRequest) : Prog IOReturn := do
  deref dev
  let a ← ask
  during host (.DeviceRequest dev request a.ret)
  pure a.ret

def USBDeviceClose (host : Event → Prog Unit) (dev : Ptr) : Prog Unit := do
  deref dev
  during host (.USBDeviceClose dev)

def DeviceRelease (host : Event → Prog Unit) (dev : Ptr) : Prog Unit := do
  deref dev
  during host (.DeviceRelease dev)

def IOObjectRelease (host : Event → Prog Unit) (object : io_service_t) : Prog Unit :=
  during host (.IOObjectRelease object)

/-- The C function `InitializePICController`, on a re-entering host. -/
def InitializePICController (host : Event → Prog Unit) (dev : Ptr) : Prog IOReturn := do
  syslog host LOG_NOTICE "USBPre: Starting PIC initialization" []
  -- Command 1: Initialize PIC
  let data := 0x81
  let request : IOUSBDevRequest :=
    { bmRequestType := USBmakebmRequestType kUSBOut kUSBVendor kUSBDevice
      bRequest := 0x01
      wValue := 0x00F0
      wIndex := 0x01F0
      wLength := 1
      pData := data }
  let result ← DeviceRequest host dev request
  if result ≠ kIOReturnSuccess then do
    syslog host LOG_ERR "USBPre: Command 1 failed: 0x%08x" [result]
    pure result
  else do
    syslog host LOG_INFO "USBPre: Command 1 (0x81) succeeded" []
    -- Wait 5 seconds (as observed in Windows driver)
    sleep host 5
    -- Command 2: Activate PIC
    let data := 0xC0
    let request : IOUSBDevRequest :=
      { request with wValue := 0x00F0, wIndex := 0x01F0, wLength := 1, pData := data }
    let result ← DeviceRequest host dev request
    if result ≠ kIOReturnSuccess then do
      syslog host LOG_ERR "USBPre: Command 2 failed: 0x%08x" [result]
      pure result
    else do
      syslog host LOG_NOTICE "USBPre: PIC initialization complete (Command 2: 0xC0)" []
      pure kIOReturnSuccess

/-- The C function `InitializeUSBPreDevice`, on a re-entering host. -/
def InitializeUSBPreDevice (host : Event → Prog Unit) (device : io_service_t) :
    Prog Unit := do
  -- Prevent concurrent initialization
  let flag ← load_initialization_in_progress
  if flag ≠ 0 then do
    syslog host LOG_INFO "USBPre: Initialization already in progress, skipping" []
    pure ()
  else do
    store_initialization_in_progress 1
    syslog host LOG_INFO "USBPre: Device detected, opening interface" []
    -- Create plugin interface
    let (kr, plugInInterface) ← IOCreatePlugInInterfaceForService host device
    if kr ≠ KERN_SUCCESS ∨ plugInInterface = NULL then do
      syslog host LOG_ERR "USBPre: Failed to create plugin interface: 0x%08x" [kr]
      store_initialization_in_progress 0
      pure ()
    else do
      -- Get device interface
      let (kr, deviceInterface) ← QueryInterface host plugInInterface
      PlugInRelease host plugInInterface
      if kr ≠ KERN_SUCCESS ∨ deviceInterface = NULL then do
        syslog host LOG_ERR "USBPre: Failed to get device interface: 0x%08x" [kr]
        store_initialization_in_progress 0
        pure ()
      else do
        -- Open device
        let kr ← USBDeviceOpen host deviceInterface
        if kr ≠ kIOReturnSuccess then do
          syslog host LOG_ERR "USBPre: Failed to open device: 0x%08x" [kr]
          DeviceRelease host deviceInterface
          store_initialization_in_progress 0
          pure ()
        else do
          -- Send PIC initialization commands
          let kr ← InitializePICController host deviceInterface
          -- Clean up
          USBDeviceClose host deviceInterface
          DeviceRelease host deviceInterface
          store_initialization_in_progress 0
          if kr = kIOReturnSuccess then
            syslog host LOG_NOTICE "USBPre: Successfully initialized - device ready" []
          else
            syslog host LOG_ERR "USBPre: Initialization failed: 0x%08x" [kr]

/-- The C function `DeviceAddedCallback`, on a re-entering host; the iterator is
modelled as in `Daemon.DeviceAddedCallback`. -/
def DeviceAddedCallback (host : Event → Prog Unit) : List io_service_t → Prog Unit
  | [] => during host (.IOIteratorNext IO_OBJECT_NULL)
  | device :: iterator =>
    if device = IO_OBJECT_NULL then
      during host (.IOIteratorNext IO_OBJECT_NULL)
    else do
      during host (.IOIteratorNext device)
      syslog host LOG_NOTICE "USBPre: Device arrival detected" []
      -- Small delay to let macOS settle
      sleep host 1
      -- Initialize the device
      InitializeUSBPreDevice host device
      -- Release this reference
      IOObjectRelease host device
      DeviceAddedCallback host iterator

end Reentrant

/-! ## Hosts -/

/-- The host that runs nothing during a call. -/
def quietHost : Event → Prog Unit := fun _ => pure ()

/-- The host that, during every call the daemon makes, reads the daemon's flag, as the
entry of a re-entered `InitializeUSBPreDevice` would. -/
def probingHost : Event → Prog Unit := fun _ => do
  let _ ← load_initialization_in_progress
  pure ()

/-- The host that delivers one more arrival notification, for the objects of `arrival`,
while the daemon is in its 5-second delay: it re-enters `DeviceAddedCallback` during
`sleep(5)` and does nothing during any other call. -/
def deliveringHost (arrival : List io_service_t) : Event → Prog Unit
  | .sleep seconds => if seconds = 5 then Daemon.DeviceAddedCallback arrival else pure ()
  | _ => pure ()

/-! ## Reading a trace -/

/-- The events a program adds to the trace when started in `w`. -/
def eventsOf {α : Type} (p : Prog α) (w : World) : List Event :=
  (p w).2.trace.drop w.trace.length

/-- Control transfers and delays: the events the handshake consists of. -/
def isHandshake : Event → Bool
  | .DeviceRequest _ _ _ => true
  | .sleep _ => true
  | _ => false

/-- The handshake part of a trace, in order. -/
def handshake (es : List Event) : List Event := es.filter isHandshake

/-- The requests of the control transfers of a trace, in order. -/
def transfers (es : List Event) : List IOUSBDevRequest :=
  es.filterMap fun e =>
    match e with
    | .DeviceRequest _ request _ => some request
    | _ => none

/-- The wire format of a PIC command with payload byte `data`, as documented at the
head of `usbpre_init.c`. -/
def command (data : Nat) : IOUSBDevRequest :=
  { bmRequestType := 0x40, bRequest := 0x01, wValue := 0x00F0, wIndex := 0x01F0,
    wLength := 1, pData := data }

/-- The values read from `initialization_in_progress`, in order. -/
def loads (es : List Event) : List Int :=
  es.filterMap fun e =>
    match e with
    | .load_initialization_in_progress v => some v
    | _ => none

/-- The values written to `initialization_in_progress`, in order. -/
def stores (es : List Event) : List Int :=
  es.filterMap fun e =>
    match e with
    | .store_initialization_in_progress v => some v
    | _ => none

/-- The handles on which `USBDeviceOpen` returned success, in order. -/
def opened (es : List Event) : List Ptr :=
  es.filterMap fun e =>
    match e with
    | .USBDeviceOpen dev kr => if kr = kIOReturnSuccess then some dev else none
    | _ => none

/-- The handles passed to `USBDeviceClose`, in order. -/
def closed (es : List Event) : List Ptr :=
  es.filterMap fun e =>
    match e with
    | .USBDeviceClose dev => some dev
    | _ => none

def isClose : Event → Bool
  | .USBDeviceClose _ => true
  | _ => false

/-- Calls that need the handle to be open, or that open it. -/
def usesHandle : Event → Bool
  | .USBDeviceOpen _ _ => true
  | .DeviceRequest _ _ _ => true
  | _ => false

/-- One of the three open steps, with a result the daemon treats as a failure. -/
def openStepFailed : Event → Bool
  | .IOCreatePlugInInterfaceForService _ kr plugIn => kr ≠ KERN_SUCCESS || plugIn = NULL
  | .QueryInterface _ kr deviceInterface => kr ≠ KERN_SUCCESS || deviceInterface = NULL
  | .USBDeviceOpen _ kr => kr ≠ kIOReturnSuccess
  | _ => false

/-- The devices on which an open attempt (its first step, the creation of the
plug-in interface) was made, in order. -/
def openAttempts (es : List Event) : List io_service_t :=
  es.filterMap fun e =>
    match e with
    | .IOCreatePlugInInterfaceForService device _ _ => some device
    | _ => none

/-- The first thing `InitializePICController` does. -/
def picStarted : Event :=
  .syslog LOG_NOTICE "USBPre: Starting PIC initialization" []

/-- The only thing the daemon does for a device the guard turns away. -/
def skipped : Event :=
  .syslog LOG_INFO "USBPre: Initialization already in progress, skipping" []

/-- What one turn of the `while` loop of `DeviceAddedCallback` adds to the trace,
given the events `run` of its call of `InitializeUSBPreDevice`. -/
def loopTurn (device : io_service_t) (run : List Event) : List Event :=
  [.IOIteratorNext device, .syslog LOG_NOTICE "USBPre: Device arrival detected" [], .sleep 1]
    ++ run ++ [.IOObjectRelease device]

/-- Events `InitializeUSBPreDevice device` may add: nothing of the surrounding loop
(iterator, settle delay, release of the object) and no open attempt on another
device. -/
def inRun (device : io_service_t) : Event → Bool
  | .IOIteratorNext _ => false
  | .IOObjectRelease _ => false
  | .sleep seconds => seconds ≠ 1
  | .IOCreatePlugInInterfaceForService d _ _ => d = device
  | _ => true

/-- The list `run` is what one call of `InitializeUSBPreDevice device` adds to the
trace, from some state in which the call returns. -/
def IsRunOf (device : io_service_t) (run : List Event) : Prop :=
  ∃ w : World, (Daemon.InitializeUSBPreDevice device w).1 = some () ∧
    (Daemon.InitializeUSBPreDevice device w).2.trace = w.trace ++ run

/-- A plug-in creation that returned success and left the plug-in pointer `NULL`. -/
def createdNull : Event → Bool
  | .IOCreatePlugInInterfaceForService _ kr plugIn => kr = kIOReturnSuccess && plugIn = NULL
  | _ => false

/-- A device lookup that found a device. -/
def foundDevice : Event → Bool
  | .IOServiceGetMatchingService _ service => service ≠ IO_OBJECT_NULL
  | _ => false

/-- A `USBDeviceOpen` that returned success. -/
def openSucceeded : Event → Bool
  | .USBDeviceOpen _ kr => kr = kIOReturnSuccess
  | _ => false

/-- A control transfer of the command with payload `data` that returned success. -/
def transferSucceeded (data : Nat) : Event → Bool
  | .DeviceRequest _ request kr => request = command data && kr = kIOReturnSuccess
  | _ => false

def isFlagAccess : Event → Bool
  | .load_initialization_in_progress _ => true
  | .store_initialization_in_progress _ => true
  | _ => false

/-- The reads and writes of `initialization_in_progress` in a trace, in order. -/
def flagAccesses (es : List Event) : List Event := es.filter isFlagAccess

/-- What `DeviceAddedCallback` adds to the trace for one arriving object that the guard
turns away: the loop turn whose call of `InitializeUSBPreDevice` reads the flag as `1`
and skips, then the `IOIteratorNext` that ends the loop. -/
def droppedArrival (device : io_service_t) : List Event :=
  loopTurn device [.load_initialization_in_progress 1, skipped]
    ++ [.IOIteratorNext IO_OBJECT_NULL]

/-! ## Sample hosts -/

/-- A host on which every call succeeds and every object and pointer is `1`. -/
def hostAllSucceed : World :=
  { initialization_in_progress := 0, answers := fun _ => ⟨0, 1⟩, asked := 0, trace := [] }

/-- The same host, seen while the daemon's flag is set. -/
def hostFlagSet : World :=
  { hostAllSucceed with initialization_in_progress := 1 }

/-- A host on which the third call fails with `kIOReturnNotOpen`; for the daemon
that call is `USBDeviceOpen`. -/
def hostOpenFails : World :=
  { hostAllSucceed with answers := fun n => if n = 2 then ⟨-536870195, 1⟩ else ⟨0, 1⟩ }

/-- A host on which the third call returns success and a `NULL` out-pointer; for
the one-shot tool that call is `IOCreatePlugInInterfaceForService`. -/
def hostNullPlugIn : World :=
  { hostAllSucceed with answers := fun n => if n = 2 then ⟨0, 0⟩ else ⟨0, 1⟩ }

/-! ## Evaluation lemmas -/

theorem bind_apply {α β : Type} (m : Prog α) (f : α → Prog β) (w : World) :
    (m >>= f) w = Prog.andThen m f w := rfl

theorem pure_apply {α : Type} (a : α) (w : World) : (pure a : Prog α) w = (some a, w) := rfl

theorem bmRequestType_eq : USBmakebmRequestType kUSBOut kUSBVendor kUSBDevice = 0x40 := by
  decide

/-- What `InitializePICController` does, for each result of its transfers. -/
theorem pic_eval (dev : Ptr) (hdev : dev ≠ NULL) (w : World) :
    Daemon.InitializePICController dev w =
      if (w.answers w.asked).ret ≠ 0 then
        (some (w.answers w.asked).ret, { w with asked := w.asked + 1, trace := w.trace ++ [
            .syslog LOG_NOTICE "USBPre: Starting PIC initialization" [],
            .DeviceRequest dev (command 0x81) (w.answers w.asked).ret,
            .syslog LOG_ERR "USBPre: Command 1 failed: 0x%08x" [(w.answers w.asked).ret]] })
      else if (w.answers (w.asked + 1)).ret ≠ 0 then
        (some (w.answers (w.asked + 1)).ret, { w with asked := w.asked + 2, trace := w.trace ++ [
            .syslog LOG_NOTICE "USBPre: Starting PIC initialization" [],
            .DeviceRequest dev (command 0x81) (w.answers w.asked).ret,
            .syslog LOG_INFO "USBPre: Command 1 (0x81) succeeded" [],
            .sleep 5,
            .DeviceRequest dev (command 0xC0) (w.answers (w.asked + 1)).ret,
            .syslog LOG_ERR "USBPre: Command 2 failed: 0x%08x" [(w.answers (w.asked + 1)).ret]] })
      else
        (some 0, { w with asked := w.asked + 2, trace := w.trace ++ [
            .syslog LOG_NOTICE "USBPre: Starting PIC initialization" [],
            .DeviceRequest dev (command 0x81) (w.answers w.asked).ret,
            .syslog LOG_INFO "USBPre: Command 1 (0x81) succeeded" [],
            .sleep 5,
            .DeviceRequest dev (command 0xC0) (w.answers (w.asked + 1)).ret,
            .syslog LOG_NOTICE "USBPre: PIC initialization complete (Command 2: 0xC0)" []] }) := by
  have hd : ¬ dev = 0 := hdev
  by_cases h1 : (w.answers w.asked).ret = 0
  · by_cases h2 : (w.answers (w.asked + 1)).ret = 0
    · simp [Daemon.InitializePICController, bind_apply, Prog.andThen, syslog, emit,
      DeviceRequest, deref, pure_apply, ask, sleep, kIOReturnSuccess, NULL, command,
      bmRequestType_eq, hd, h1, h2]
    · simp [Daemon.InitializePICController, bind_apply, Prog.andThen, syslog, emit,
      DeviceRequest, deref, pure_apply, ask, sleep, kIOReturnSuccess, NULL, command,
      bmRequestType_eq, hd, h1, h2]
  · simp [Daemon.InitializePICController, bind_apply, Prog.andThen, syslog, emit,
      DeviceRequest, deref, pure_apply, ask, sleep, kIOReturnSuccess, NULL, command,
      bmRequestType_eq, hd, h1]

/-- What `InitializeUSBPreDevice` does: one case for each way through the function,
with the condition on the flag and on the results of the calls that selects it. -/
theorem init_cases (device : io_service_t) (w : World) :
    ((w.initialization_in_progress ≠ 0) ∧
      Daemon.InitializeUSBPreDevice device w =
        (some (), { w with trace := w.trace ++ [
            .load_initialization_in_progress w.initialization_in_progress,
            .syslog LOG_INFO "USBPre: Initialization already in progress, skipping" []] })) ∨
    ((w.initialization_in_progress = 0 ∧ ((w.answers w.asked).ret ≠ 0 ∨ (w.answers w.asked).out = 0)) ∧
      Daemon.InitializeUSBPreDevice device w =
        (some (), { w with initialization_in_progress := 0, asked := w.asked + 1, trace := w.trace ++ [
            .load_initialization_in_progress 0,
            .store_initialization_in_progress 1,
            .syslog LOG_INFO "USBPre: Device detected, opening interface" [],
            .IOCreatePlugInInterfaceForService device (w.answers w.asked).ret (w.answers w.asked).out,
            .syslog LOG_ERR "USBPre: Failed to create plugin interface: 0x%08x" [(w.answers w.asked).ret],
            .store_initialization_in_progress 0] })) ∨
    ((w.initialization_in_progress = 0 ∧ (w.answers w.asked).ret = 0 ∧ (w.answers w.asked).out ≠ 0 ∧ ((w.answers (w.asked + 1)).ret ≠ 0 ∨ (w.answers (w.asked + 1)).out = 0)) ∧
      Daemon.InitializeUSBPreDevice device w =
        (some (), { w with initialization_in_progress := 0, asked := w.asked + 2, trace := w.trace ++ [
            .load_initialization_in_progress 0,
            .store_initialization_in_progress 1,
            .syslog LOG_INFO "USBPre: Device detected, opening interface" [],
            .IOCreatePlugInInterfaceForService device (w.answers w.asked).ret (w.answers w.asked).out,
            .QueryInterface (w.answers w.asked).out (w.answers (w.asked + 1)).ret (w.answers (w.asked + 1)).out,
            .PlugInRelease (w.answers w.asked).out,
            .syslog LOG_ERR "USBPre: Failed to get device interface: 0x%08x" [(w.answers (w.asked + 1)).ret],
            .store_initialization_in_progress 0] })) ∨
    ((w.initialization_in_progress = 0 ∧ (w.answers w.asked).ret = 0 ∧ (w.answers w.asked).out ≠ 0 ∧ (w.answers (w.asked + 1)).ret = 0 ∧ (w.answers (w.asked + 1)).out ≠ 0 ∧ (w.answers (w.asked + 2)).ret ≠ 0) ∧
      Daemon.InitializeUSBPreDevice device w =
        (some (), { w with initialization_in_progress := 0, asked := w.asked + 3, trace := w.trace ++ [
            .load_initialization_in_progress 0,
            .store_initialization_in_progress 1,
            .syslog LOG_INFO "USBPre: Device detected, opening interface" [],
            .IOCreatePlugInInterfaceForService device (w.answers w.asked).ret (w.answers w.asked).out,
            .QueryInterface (w.answers w.asked).out (w.answers (w.asked + 1)).ret (w.answers (w.asked + 1)).out,
            .PlugInRelease (w.answers w.asked).out,
            .USBDeviceOpen (w.answers (w.asked + 1)).out (w.answers (w.asked + 2)).ret,
            .syslog LOG_ERR "USBPre: Failed to open device: 0x%08x" [(w.answers (w.asked + 2)).ret],
            .DeviceRelease (w.answers (w.asked + 1)).out,
            .store_initialization_in_progress 0] })) ∨
    ((w.initialization_in_progress = 0 ∧ (w.answers w.asked).ret = 0 ∧ (w.answers w.asked).out ≠ 0 ∧ (w.answers (w.asked + 1)).ret = 0 ∧ (w.answers (w.asked + 1)).out ≠ 0 ∧ (w.answers (w.asked + 2)).ret = 0 ∧ (w.answers (w.asked + 3)).ret ≠ 0) ∧
      Daemon.InitializeUSBPreDevice device w =
        (some (), { w with initialization_in_progress := 0, asked := w.asked + 4, trace := w.trace ++ [
            .load_initialization_in_progress 0,
            .store_initialization_in_progress 1,
            .syslog LOG_INFO "USBPre: Device detected, opening interface" [],
            .IOCreatePlugInInterfaceForService device (w.answers w.asked).ret (w.answers w.asked).out,
            .QueryInterface (w.answers w.asked).out (w.answers (w.asked + 1)).ret (w.answers (w.asked + 1)).out,
            .PlugInRelease (w.answers w.asked).out,
            .USBDeviceOpen (w.answers (w.asked + 1)).out (w.answers (w.asked + 2)).ret,
            .syslog LOG_NOTICE "USBPre: Starting PIC initialization" [],
            .DeviceRequest (w.answers (w.asked + 1)).out (command 0x81) (w.answers (w.asked + 3)).ret,
            .syslog LOG_ERR "USBPre: Command 1 failed: 0x%08x" [(w.answers (w.asked + 3)).ret],
            .USBDeviceClose (w.answers (w.asked + 1)).out,
            .DeviceRelease (w.answers (w.asked + 1)).out,
            .store_initialization_in_progress 0,
            .syslog LOG_ERR "USBPre: Initialization failed: 0x%08x" [(w.answers (w.asked + 3)).ret]] })) ∨
    ((w.initialization_in_progress = 0 ∧ (w.answers w.asked).ret = 0 ∧ (w.answers w.asked).out ≠ 0 ∧ (w.answers (w.asked + 1)).ret = 0 ∧ (w.answers (w.asked + 1)).out ≠ 0 ∧ (w.answers (w.asked + 2)).ret = 0 ∧ (w.answers (w.asked + 3)).ret = 0 ∧ (w.answers (w.asked + 4)).ret ≠ 0) ∧
      Daemon.InitializeUSBPreDevice device w =
        (some (), { w with initialization_in_progress := 0, asked := w.asked + 5, trace := w.trace ++ [
            .load_initialization_in_progress 0,
            .store_initialization_in_progress 1,
            .syslog LOG_INFO "USBPre: Device detected, opening interface" [],
            .IOCreatePlugInInterfaceForService device (w.answers w.asked).ret (w.answers w.asked).out,
            .QueryInterface (w.answers w.asked).out (w.answers (w.asked + 1)).ret (w.answers (w.asked + 1)).out,
            .PlugInRelease (w.answers w.asked).out,
            .USBDeviceOpen (w.answers (w.asked + 1)).out (w.answers (w.asked + 2)).ret,
            .syslog LOG_NOTICE "USBPre: Starting PIC initialization" [],
            .DeviceRequest (w.answers (w.asked + 1)).out (command 0x81) (w.answers (w.asked + 3)).ret,
            .syslog LOG_INFO "USBPre: Command 1 (0x81) succeeded" [],
            .sleep 5,
            .DeviceRequest (w.answers (w.asked + 1)).out (command 0xC0) (w.answers (w.asked + 4)).ret,
            .syslog LOG_ERR "USBPre: Command 2 failed: 0x%08x" [(w.answers (w.asked + 4)).ret],
            .USBDeviceClose (w.answers (w.asked + 1)).out,
            .DeviceRelease (w.answers (w.asked + 1)).out,
            .store_initialization_in_progress 0,
            .syslog LOG_ERR "USBPre: Initialization failed: 0x%08x" [(w.answers (w.asked + 4)).ret]] })) ∨
    ((w.initialization_in_progress = 0 ∧ (w.answers w.asked).ret = 0 ∧ (w.answers w.asked).out ≠ 0 ∧ (w.answers (w.asked + 1)).ret = 0 ∧ (w.answers (w.asked + 1)).out ≠ 0 ∧ (w.answers (w.asked + 2)).ret = 0 ∧ (w.answers (w.asked + 3)).ret = 0 ∧ (w.answers (w.asked + 4)).ret = 0) ∧
      Daemon.InitializeUSBPreDevice device w =
        (some (), { w with initialization_in_progress := 0, asked := w.asked + 5, trace := w.trace ++ [
            .load_initialization_in_progress 0,
            .store_initialization_in_progress 1,
            .syslog LOG_INFO "USBPre: Device detected, opening interface" [],
            .IOCreatePlugInInterfaceForService device (w.answers w.asked).ret (w.answers w.asked).out,
            .QueryInterface (w.answers w.asked).out (w.answers (w.asked + 1)).ret (w.answers (w.asked + 1)).out,
            .PlugInRelease (w.answers w.asked).out,
            .USBDeviceOpen (w.answers (w.asked + 1)).out (w.answers (w.asked + 2)).ret,
            .syslog LOG_NOTICE "USBPre: Starting PIC initialization" [],
            .DeviceRequest (w.answers (w.asked + 1)).out (command 0x81) (w.answers (w.asked + 3)).ret,
            .syslog LOG_INFO "USBPre: Command 1 (0x81) succeeded" [],
            .sleep 5,
            .DeviceRequest (w.answers (w.asked + 1)).out (command 0xC0) (w.answers (w.asked + 4)).ret,
            .syslog LOG_NOTICE "USBPre: PIC initialization complete (Command 2: 0xC0)" [],
            .USBDeviceClose (w.answers (w.asked + 1)).out,
            .DeviceRelease (w.answers (w.asked + 1)).out,
            .store_initialization_in_progress 0,
            .syslog LOG_NOTICE "USBPre: Successfully initialized - device ready" []] })) := by
  by_cases h0 : w.initialization_in_progress = 0
  swap
  · refine Or.inl ?_
    refine ⟨h0, ?_⟩
    simp [Daemon.InitializeUSBPreDevice, bind_apply, Prog.andThen, syslog, emit, pure_apply,
      load_initialization_in_progress, h0]
  by_cases h1 : (w.answers w.asked).ret ≠ 0 ∨ (w.answers w.asked).out = 0
  · refine Or.inr (Or.inl ?_)
    refine ⟨⟨h0, h1⟩, ?_⟩
    simp [Daemon.InitializeUSBPreDevice, Daemon.InitializePICController, bind_apply,
      Prog.andThen, syslog, emit, pure_apply, ask, sleep, load_initialization_in_progress,
      store_initialization_in_progress, IOCreatePlugInInterfaceForService, QueryInterface,
      PlugInRelease, USBDeviceOpen, USBDeviceClose, DeviceRelease, DeviceRequest, deref,
      KERN_SUCCESS, kIOReturnSuccess, NULL, command, bmRequestType_eq, h0, h1]
  have h1a : (w.answers w.asked).ret = 0 := by
    by_contra hc
    exact h1 (Or.inl hc)
  have h1b : ¬ (w.answers w.asked).out = 0 := fun hc => h1 (Or.inr hc)
  by_cases h2 : (w.answers (w.asked + 1)).ret ≠ 0 ∨ (w.answers (w.asked + 1)).out = 0
  · refine Or.inr (Or.inr (Or.inl ?_))
    refine ⟨⟨h0, h1a, h1b, h2⟩, ?_⟩
    simp [Daemon.InitializeUSBPreDevice, Daemon.InitializePICController, bind_apply,
      Prog.andThen, syslog, emit, pure_apply, ask, sleep, load_initialization_in_progress,
      store_initialization_in_progress, IOCreatePlugInInterfaceForService, QueryInterface,
      PlugInRelease, USBDeviceOpen, USBDeviceClose, DeviceRelease, DeviceRequest, deref,
      KERN_SUCCESS, kIOReturnSuccess, NULL, command, bmRequestType_eq, h0, h1a, h1b, h2]
  have h2a : (w.answers (w.asked + 1)).ret = 0 := by
    by_contra hc
    exact h2 (Or.inl hc)
  have h2b : ¬ (w.answers (w.asked + 1)).out = 0 := fun hc => h2 (Or.inr hc)
  by_cases h3 : (w.answers (w.asked + 2)).ret = 0
  swap
  · refine Or.inr (Or.inr (Or.inr (Or.inl ?_)))
    refine ⟨⟨h0, h1a, h1b, h2a, h2b, h3⟩, ?_⟩
    simp [Daemon.InitializeUSBPreDevice, Daemon.InitializePICController, bind_apply,
      Prog.andThen, syslog, emit, pure_apply, ask, sleep, load_initialization_in_progress,
      store_initialization_in_progress, IOCreatePlugInInterfaceForService, QueryInterface,
      PlugInRelease, USBDeviceOpen, USBDeviceClose, DeviceRelease, DeviceRequest, deref,
      KERN_SUCCESS, kIOReturnSuccess, NULL, command, bmRequestType_eq, h0, h1a, h1b, h2a, h2b, h3]
  by_cases h4 : (w.answers (w.asked + 3)).ret = 0
  swap
  · refine Or.inr (Or.inr (Or.inr (Or.inr (Or.inl ?_))))
    refine ⟨⟨h0, h1a, h1b, h2a, h2b, h3, h4⟩, ?_⟩
    simp [Daemon.InitializeUSBPreDevice, Daemon.InitializePICController, bind_apply,
      Prog.andThen, syslog, emit, pure_apply, ask, sleep, load_initialization_in_progress,
      store_initialization_in_progress, IOCreatePlugInInterfaceForService, QueryInterface,
      PlugInRelease, USBDeviceOpen, USBDeviceClose, DeviceRelease, DeviceRequest, deref,
      KERN_SUCCESS, kIOReturnSuccess, NULL, command, bmRequestType_eq, h0, h1a, h1b, h2a, h2b, h3, h4]
  by_cases h5 : (w.answers (w.asked + 4)).ret = 0
  swap
  · refine Or.inr (Or.inr (Or.inr (Or.inr (Or.inr (Or.inl ?_)))))
    refine ⟨⟨h0, h1a, h1b, h2a, h2b, h3, h4, h5⟩, ?_⟩
    simp [Daemon.InitializeUSBPreDevice, Daemon.InitializePICController, bind_apply,
      Prog.andThen, syslog, emit, pure_apply, ask, sleep, load_initialization_in_progress,
      store_initialization_in_progress, IOCreatePlugInInterfaceForService, QueryInterface,
      PlugInRelease, USBDeviceOpen, USBDeviceClose, DeviceRelease, DeviceRequest, deref,
      KERN_SUCCESS, kIOReturnSuccess, NULL, command, bmRequestType_eq, h0, h1a, h1b, h2a, h2b, h3, h4, h5]
  · refine Or.inr (Or.inr (Or.inr (Or.inr (Or.inr (Or.inr (?_))))))
    refine ⟨⟨h0, h1a, h1b, h2a, h2b, h3, h4, h5⟩, ?_⟩
    simp [Daemon.InitializeUSBPreDevice, Daemon.InitializePICController, bind_apply,
      Prog.andThen, syslog, emit, pure_apply, ask, sleep, load_initialization_in_progress,
      store_initialization_in_progress, IOCreatePlugInInterfaceForService, QueryInterface,
      PlugInRelease, USBDeviceOpen, USBDeviceClose, DeviceRelease, DeviceRequest, deref,
      KERN_SUCCESS, kIOReturnSuccess, NULL, command, bmRequestType_eq, h0, h1a, h1b, h2a, h2b, h3, h4, h5]

/-- What `find_usbpre_device` does, for each result of the calls it makes. -/
theorem find_eval (w : World) :
    Cli.find_usbpre_device w =
      if (w.answers w.asked).out = 0 then
        (some 0, { w with asked := w.asked + 1, trace := w.trace ++ [
            .IOServiceMatching (w.answers w.asked).out] })
      else
        (some (w.answers (w.asked + 1)).out, { w with asked := w.asked + 2, trace := w.trace ++ [
            .IOServiceMatching (w.answers w.asked).out,
            .CFNumberCreate USBPRE_VENDOR_ID,
            .CFNumberCreate USBPRE_PRODUCT_ID,
            .CFDictionarySetValue (w.answers w.asked).out "idVendor" USBPRE_VENDOR_ID,
            .CFDictionarySetValue (w.answers w.asked).out "idProduct" USBPRE_PRODUCT_ID,
            .CFRelease USBPRE_VENDOR_ID,
            .CFRelease USBPRE_PRODUCT_ID,
            .IOServiceGetMatchingService (w.answers w.asked).out (w.answers (w.asked + 1)).out] }) := by
  by_cases h0 : (w.answers w.asked).out = 0
  · simp [Cli.find_usbpre_device, bind_apply, Prog.andThen, emit, pure_apply, ask,
      IOServiceMatching, NULL, IO_OBJECT_NULL, h0]
  · simp [Cli.find_usbpre_device, bind_apply, Prog.andThen, emit, pure_apply, ask,
      IOServiceMatching, CFNumberCreate, CFDictionarySetValue, CFRelease,
      IOServiceGetMatchingService, NULL, IO_OBJECT_NULL, h0]

/-- What `open_device` does, for each result of the calls it makes. -/
theorem open_eval (device : io_service_t) (w : World) :
    Cli.open_device device w =
      if (w.answers w.asked).ret ≠ 0 then
        (some 0, { w with asked := w.asked + 1, trace := w.trace ++ [
            .IOCreatePlugInInterfaceForService device (w.answers w.asked).ret (w.answers w.asked).out] })
      else if (w.answers w.asked).out = 0 then
        (none, { w with asked := w.asked + 1, trace := w.trace ++ [
            .IOCreatePlugInInterfaceForService device (w.answers w.asked).ret (w.answers w.asked).out] })
      else if (w.answers (w.asked + 1)).out = 0 then
        (some 0, { w with asked := w.asked + 2, trace := w.trace ++ [
            .IOCreatePlugInInterfaceForService device (w.answers w.asked).ret (w.answers w.asked).out,
            .QueryInterface (w.answers w.asked).out (w.answers (w.asked + 1)).ret (w.answers (w.asked + 1)).out,
            .PlugInRelease (w.answers w.asked).out] })
      else if (w.answers (w.asked + 2)).ret ≠ 0 then
        (some 0, { w with asked := w.asked + 3, trace := w.trace ++ [
            .IOCreatePlugInInterfaceForService device (w.answers w.asked).ret (w.answers w.asked).out,
            .QueryInterface (w.answers w.asked).out (w.answers (w.asked + 1)).ret (w.answers (w.asked + 1)).out,
            .PlugInRelease (w.answers w.asked).out,
            .USBDeviceOpen (w.answers (w.asked + 1)).out (w.answers (w.asked + 2)).ret,
            .DeviceRelease (w.answers (w.asked + 1)).out] })
      else
        (some (w.answers (w.asked + 1)).out, { w with asked := w.asked + 3, trace := w.trace ++ [
            .IOCreatePlugInInterfaceForService device (w.answers w.asked).ret (w.answers w.asked).out,
            .QueryInterface (w.answers w.asked).out (w.answers (w.asked + 1)).ret (w.answers (w.asked + 1)).out,
            .PlugInRelease (w.answers w.asked).out,
            .USBDeviceOpen (w.answers (w.asked + 1)).out (w.answers (w.asked + 2)).ret] }) := by
  by_cases h0 : (w.answers w.asked).ret = 0
  swap
  · simp [Cli.open_device, bind_apply, Prog.andThen, emit, pure_apply, ask,
      IOCreatePlugInInterfaceForService, kIOReturnSuccess, NULL, h0]
  by_cases h1 : (w.answers w.asked).out = 0
  · simp [Cli.open_device, bind_apply, Prog.andThen, emit, pure_apply, ask, fault,
      IOCreatePlugInInterfaceForService, QueryInterface, deref, kIOReturnSuccess, NULL, h0, h1]
  by_cases h2 : (w.answers (w.asked + 1)).out = 0
  · simp [Cli.open_device, bind_apply, Prog.andThen, emit, pure_apply, ask, fault,
      IOCreatePlugInInterfaceForService, QueryInterface, PlugInRelease, deref,
      kIOReturnSuccess, NULL, h0, h1, h2]
  by_cases h3 : (w.answers (w.asked + 2)).ret = 0
  · simp [Cli.open_device, bind_apply, Prog.andThen, emit, pure_apply, ask, fault,
      IOCreatePlugInInterfaceForService, QueryInterface, PlugInRelease, USBDeviceOpen,
      DeviceRelease, deref, kIOReturnSuccess, NULL, h0, h1, h2, h3]
  · simp [Cli.open_device, bind_apply, Prog.andThen, emit, pure_apply, ask, fault,
      IOCreatePlugInInterfaceForService, QueryInterface, PlugInRelease, USBDeviceOpen,
      DeviceRelease, deref, kIOReturnSuccess, NULL, h0, h1, h2, h3]

/-- What `send_pic_command` does. -/
theorem send_eval (dev : Ptr) (data : Nat) (w : World) :
    Cli.send_pic_command dev data w =
      if dev = 0 then (none, w)
      else
        (some (w.answers w.asked).ret, { w with asked := w.asked + 1, trace := w.trace ++ [
            .DeviceRequest dev (command data) (w.answers w.asked).ret] }) := by
  by_cases h0 : dev = 0
  · simp [Cli.send_pic_command, bind_apply, Prog.andThen, fault, DeviceRequest, deref, NULL, h0]
  · simp [Cli.send_pic_command, bind_apply, Prog.andThen, emit, pure_apply, ask, fault,
      DeviceRequest, deref, NULL, command, bmRequestType_eq, h0]

/-- What the tool's `main` does: one case for each way through the program, with the
condition on the results of the calls that selects it. -/
theorem main_cases (w : World) :
    (((w.answers w.asked).out = 0) ∧
      Cli.main w =
        (some 1, { w with asked := w.asked + 1, trace := w.trace ++ [
            .printf "USBPre PIC Initialization\n",
            .printf "=========================\n\n",
            .IOServiceMatching (w.answers w.asked).out,
            .fprintf_stderr "Error: USBPre not found. Is it plugged in?\n"] })) ∨
    (((w.answers w.asked).out ≠ 0 ∧ (w.answers (w.asked + 1)).out = 0) ∧
      Cli.main w =
        (some 1, { w with asked := w.asked + 2, trace := w.trace ++ [
            .printf "USBPre PIC Initialization\n",
            .printf "=========================\n\n",
            .IOServiceMatching (w.answers w.asked).out,
            .CFNumberCreate USBPRE_VENDOR_ID,
            .CFNumberCreate USBPRE_PRODUCT_ID,
            .CFDictionarySetValue (w.answers w.asked).out "idVendor" USBPRE_VENDOR_ID,
            .CFDictionarySetValue (w.answers w.asked).out "idProduct" USBPRE_PRODUCT_ID,
            .CFRelease USBPRE_VENDOR_ID,
            .CFRelease USBPRE_PRODUCT_ID,
            .IOServiceGetMatchingService (w.answers w.asked).out (w.answers (w.asked + 1)).out,
            .fprintf_stderr "Error: USBPre not found. Is it plugged in?\n"] })) ∨
    (((w.answers w.asked).out ≠ 0 ∧ (w.answers (w.asked + 1)).out ≠ 0 ∧ (w.answers (w.asked + 2)).ret ≠ 0) ∧
      Cli.main w =
        (some 1, { w with asked := w.asked + 3, trace := w.trace ++ [
            .printf "USBPre PIC Initialization\n",
            .printf "=========================\n\n",
            .IOServiceMatching (w.answers w.asked).out,
            .CFNumberCreate USBPRE_VENDOR_ID,
            .CFNumberCreate USBPRE_PRODUCT_ID,
            .CFDictionarySetValue (w.answers w.asked).out "idVendor" USBPRE_VENDOR_ID,
            .CFDictionarySetValue (w.answers w.asked).out "idProduct" USBPRE_PRODUCT_ID,
            .CFRelease USBPRE_VENDOR_ID,
            .CFRelease USBPRE_PRODUCT_ID,
            .IOServiceGetMatchingService (w.answers w.asked).out (w.answers (w.asked + 1)).out,
            .printf "Found USBPre device\n",
            .IOCreatePlugInInterfaceForService (w.answers (w.asked + 1)).out (w.answers (w.asked + 2)).ret (w.answers (w.asked + 2)).out,
            .IOObjectRelease (w.answers (w.asked + 1)).out,
            .fprintf_stderr "Error: Could not open device\n"] })) ∨
    (((w.answers w.asked).out ≠ 0 ∧ (w.answers (w.asked + 1)).out ≠ 0 ∧ (w.answers (w.asked + 2)).ret = 0 ∧ (w.answers (w.asked + 2)).out = 0) ∧
      Cli.main w =
        (none, { w with asked := w.asked + 3, trace := w.trace ++ [
            .printf "USBPre PIC Initialization\n",
            .printf "=========================\n\n",
            .IOServiceMatching (w.answers w.asked).out,
            .CFNumberCreate USBPRE_VENDOR_ID,
            .CFNumberCreate USBPRE_PRODUCT_ID,
            .CFDictionarySetValue (w.answers w.asked).out "idVendor" USBPRE_VENDOR_ID,
            .CFDictionarySetValue (w.answers w.asked).out "idProduct" USBPRE_PRODUCT_ID,
            .CFRelease USBPRE_VENDOR_ID,
            .CFRelease USBPRE_PRODUCT_ID,
            .IOServiceGetMatchingService (w.answers w.asked).out (w.answers (w.asked + 1)).out,
            .printf "Found USBPre device\n",
            .IOCreatePlugInInterfaceForService (w.answers (w.asked + 1)).out (w.answers (w.asked + 2)).ret (w.answers (w.asked + 2)).out] })) ∨
    (((w.answers w.asked).out ≠ 0 ∧ (w.answers (w.asked + 1)).out ≠ 0 ∧ (w.answers (w.asked + 2)).ret = 0 ∧ (w.answers (w.asked + 2)).out ≠ 0 ∧ (w.answers (w.asked + 3)).out = 0) ∧
      Cli.main w =
        (some 1, { w with asked := w.asked + 4, trace := w.trace ++ [
            .printf "USBPre PIC Initialization\n",
            .printf "=========================\n\n",
            .IOServiceMatching (w.answers w.asked).out,
            .CFNumberCreate USBPRE_VENDOR_ID,
            .CFNumberCreate USBPRE_PRODUCT_ID,
            .CFDictionarySetValue (w.answers w.asked).out "idVendor" USBPRE_VENDOR_ID,
            .CFDictionarySetValue (w.answers w.asked).out "idProduct" USBPRE_PRODUCT_ID,
            .CFRelease USBPRE_VENDOR_ID,
            .CFRelease USBPRE_PRODUCT_ID,
            .IOServiceGetMatchingService (w.answers w.asked).out (w.answers (w.asked + 1)).out,
            .printf "Found USBPre device\n",
            .IOCreatePlugInInterfaceForService (w.answers (w.asked + 1)).out (w.answers (w.asked + 2)).ret (w.answers (w.asked + 2)).out,
            .QueryInterface (w.answers (w.asked + 2)).out (w.answers (w.asked + 3)).ret (w.answers (w.asked + 3)).out,
            .PlugInRelease (w.answers (w.asked + 2)).out,
            .IOObjectRelease (w.answers (w.asked + 1)).out,
            .fprintf_stderr "Error: Could not open device\n"] })) ∨
    (((w.answers w.asked).out ≠ 0 ∧ (w.answers (w.asked + 1)).out ≠ 0 ∧ (w.answers (w.asked + 2)).ret = 0 ∧ (w.answers (w.asked + 2)).out ≠ 0 ∧ (w.answers (w.asked + 3)).out ≠ 0 ∧ (w.answers (w.asked + 4)).ret ≠ 0) ∧
      Cli.main w =
        (some 1, { w with asked := w.asked + 5, trace := w.trace ++ [
            .printf "USBPre PIC Initialization\n",
            .printf "=========================\n\n",
            .IOServiceMatching (w.answers w.asked).out,
            .CFNumberCreate USBPRE_VENDOR_ID,
            .CFNumberCreate USBPRE_PRODUCT_ID,
            .CFDictionarySetValue (w.answers w.asked).out "idVendor" USBPRE_VENDOR_ID,
            .CFDictionarySetValue (w.answers w.asked).out "idProduct" USBPRE_PRODUCT_ID,
            .CFRelease USBPRE_VENDOR_ID,
            .CFRelease USBPRE_PRODUCT_ID,
            .IOServiceGetMatchingService (w.answers w.asked).out (w.answers (w.asked + 1)).out,
            .printf "Found USBPre device\n",
            .IOCreatePlugInInterfaceForService (w.answers (w.asked + 1)).out (w.answers (w.asked + 2)).ret (w.answers (w.asked + 2)).out,
            .QueryInterface (w.answers (w.asked + 2)).out (w.answers (w.asked + 3)).ret (w.answers (w.asked + 3)).out,
            .PlugInRelease (w.answers (w.asked + 2)).out,
            .USBDeviceOpen (w.answers (w.asked + 3)).out (w.answers (w.asked + 4)).ret,
            .DeviceRelease (w.answers (w.asked + 3)).out,
            .IOObjectRelease (w.answers (w.asked + 1)).out,
            .fprintf_stderr "Error: Could not open device\n"] })) ∨
    (((w.answers w.asked).out ≠ 0 ∧ (w.answers (w.asked + 1)).out ≠ 0 ∧ (w.answers (w.asked + 2)).ret = 0 ∧ (w.answers (w.asked + 2)).out ≠ 0 ∧ (w.answers (w.asked + 3)).out ≠ 0 ∧ (w.answers (w.asked + 4)).ret = 0 ∧ (w.answers (w.asked + 5)).ret ≠ 0) ∧
      Cli.main w =
        (some 1, { w with asked := w.asked + 6, trace := w.trace ++ [
            .printf "USBPre PIC Initialization\n",
            .printf "=========================\n\n",
            .IOServiceMatching (w.answers w.asked).out,
            .CFNumberCreate USBPRE_VENDOR_ID,
            .CFNumberCreate USBPRE_PRODUCT_ID,
            .CFDictionarySetValue (w.answers w.asked).out "idVendor" USBPRE_VENDOR_ID,
            .CFDictionarySetValue (w.answers w.asked).out "idProduct" USBPRE_PRODUCT_ID,
            .CFRelease USBPRE_VENDOR_ID,
            .CFRelease USBPRE_PRODUCT_ID,
            .IOServiceGetMatchingService (w.answers w.asked).out (w.answers (w.asked + 1)).out,
            .printf "Found USBPre device\n",
            .IOCreatePlugInInterfaceForService (w.answers (w.asked + 1)).out (w.answers (w.asked + 2)).ret (w.answers (w.asked + 2)).out,
            .QueryInterface (w.answers (w.asked + 2)).out (w.answers (w.asked + 3)).ret (w.answers (w.asked + 3)).out,
            .PlugInRelease (w.answers (w.asked + 2)).out,
            .USBDeviceOpen (w.answers (w.asked + 3)).out (w.answers (w.asked + 4)).ret,
            .IOObjectRelease (w.answers (w.asked + 1)).out,
            .printf "Sending initialization commands...\n",
            .DeviceRequest (w.answers (w.asked + 3)).out (command 0x81) (w.answers (w.asked + 5)).ret,
            .fprintf_stderr "Error: Command 1 failed\n",
            .USBDeviceClose (w.answers (w.asked + 3)).out,
            .DeviceRelease (w.answers (w.asked + 3)).out] })) ∨
    (((w.answers w.asked).out ≠ 0 ∧ (w.answers (w.asked + 1)).out ≠ 0 ∧ (w.answers (w.asked + 2)).ret = 0 ∧ (w.answers (w.asked + 2)).out ≠ 0 ∧ (w.answers (w.asked + 3)).out ≠ 0 ∧ (w.answers (w.asked + 4)).ret = 0 ∧ (w.answers (w.asked + 5)).ret = 0 ∧ (w.answers (w.asked + 6)).ret ≠ 0) ∧
      Cli.main w =
        (some 1, { w with asked := w.asked + 7, trace := w.trace ++ [
            .printf "USBPre PIC Initialization\n",
            .printf "=========================\n\n",
            .IOServiceMatching (w.answers w.asked).out,
            .CFNumberCreate USBPRE_VENDOR_ID,
            .CFNumberCreate USBPRE_PRODUCT_ID,
            .CFDictionarySetValue (w.answers w.asked).out "idVendor" USBPRE_VENDOR_ID,
            .CFDictionarySetValue (w.answers w.asked).out "idProduct" USBPRE_PRODUCT_ID,
            .CFRelease USBPRE_VENDOR_ID,
            .CFRelease USBPRE_PRODUCT_ID,
            .IOServiceGetMatchingService (w.answers w.asked).out (w.answers (w.asked + 1)).out,
            .printf "Found USBPre device\n",
            .IOCreatePlugInInterfaceForService (w.answers (w.asked + 1)).out (w.answers (w.asked + 2)).ret (w.answers (w.asked + 2)).out,
            .QueryInterface (w.answers (w.asked + 2)).out (w.answers (w.asked + 3)).ret (w.answers (w.asked + 3)).out,
            .PlugInRelease (w.answers (w.asked + 2)).out,
            .USBDeviceOpen (w.answers (w.asked + 3)).out (w.answers (w.asked + 4)).ret,
            .IOObjectRelease (w.answers (w.asked + 1)).out,
            .printf "Sending initialization commands...\n",
            .DeviceRequest (w.answers (w.asked + 3)).out (command 0x81) (w.answers (w.asked + 5)).ret,
            .printf "  Command 1 (0x81): OK\n",
            .printf "  Waiting 5 seconds...\n",
            .sleep 5,
            .DeviceRequest (w.answers (w.asked + 3)).out (command 0xC0) (w.answers (w.asked + 6)).ret,
            .fprintf_stderr "Error: Command 2 failed\n",
            .USBDeviceClose (w.answers (w.asked + 3)).out,
            .DeviceRelease (w.answers (w.asked + 3)).out] })) ∨
    (((w.answers w.asked).out ≠ 0 ∧ (w.answers (w.asked + 1)).out ≠ 0 ∧ (w.answers (w.asked + 2)).ret = 0 ∧ (w.answers (w.asked + 2)).out ≠ 0 ∧ (w.answers (w.asked + 3)).out ≠ 0 ∧ (w.answers (w.asked + 4)).ret = 0 ∧ (w.answers (w.asked + 5)).ret = 0 ∧ (w.answers (w.asked + 6)).ret = 0) ∧
      Cli.main w =
        (some 0, { w with asked := w.asked + 7, trace := w.trace ++ [
            .printf "USBPre PIC Initialization\n",
            .printf "=========================\n\n",
            .IOServiceMatching (w.answers w.asked).out,
            .CFNumberCreate USBPRE_VENDOR_ID,
            .CFNumberCreate USBPRE_PRODUCT_ID,
            .CFDictionarySetValue (w.answers w.asked).out "idVendor" USBPRE_VENDOR_ID,
            .CFDictionarySetValue (w.answers w.asked).out "idProduct" USBPRE_PRODUCT_ID,
            .CFRelease USBPRE_VENDOR_ID,
            .CFRelease USBPRE_PRODUCT_ID,
            .IOServiceGetMatchingService (w.answers w.asked).out (w.answers (w.asked + 1)).out,
            .printf "Found USBPre device\n",
            .IOCreatePlugInInterfaceForService (w.answers (w.asked + 1)).out (w.answers (w.asked + 2)).ret (w.answers (w.asked + 2)).out,
            .QueryInterface (w.answers (w.asked + 2)).out (w.answers (w.asked + 3)).ret (w.answers (w.asked + 3)).out,
            .PlugInRelease (w.answers (w.asked + 2)).out,
            .USBDeviceOpen (w.answers (w.asked + 3)).out (w.answers (w.asked + 4)).ret,
            .IOObjectRelease (w.answers (w.asked + 1)).out,
            .printf "Sending initialization commands...\n",
            .DeviceRequest (w.answers (w.asked + 3)).out (command 0x81) (w.answers (w.asked + 5)).ret,
            .printf "  Command 1 (0x81): OK\n",
            .printf "  Waiting 5 seconds...\n",
            .sleep 5,
            .DeviceRequest (w.answers (w.asked + 3)).out (command 0xC0) (w.answers (w.asked + 6)).ret,
            .printf "  Command 2 (0xC0): OK\n",
            .USBDeviceClose (w.answers (w.asked + 3)).out,
            .DeviceRelease (w.answers (w.asked + 3)).out,
            .printf "\nSuccess! Device initialized.\n",
            .printf "Buttons, LEDs, and phantom power should now work.\n"] })) := by
  by_cases h0 : (w.answers w.asked).out = 0
  · refine Or.inl ?_
    refine ⟨h0, ?_⟩
    simp [Cli.main, find_eval, open_eval, send_eval, bind_apply, Prog.andThen, printf,
      fprintf_stderr, emit, pure_apply, sleep, IOObjectRelease, USBDeviceClose, DeviceRelease,
      deref, fault, kIOReturnSuccess, NULL, IO_OBJECT_NULL, h0]
  by_cases h1 : (w.answers (w.asked + 1)).out = 0
  · refine Or.inr (Or.inl ?_)
    refine ⟨⟨h0, h1⟩, ?_⟩
    simp [Cli.main, find_eval, open_eval, send_eval, bind_apply, Prog.andThen, printf,
      fprintf_stderr, emit, pure_apply, sleep, IOObjectRelease, USBDeviceClose, DeviceRelease,
      deref, fault, kIOReturnSuccess, NULL, IO_OBJECT_NULL, h0, h1]
  by_cases h2 : (w.answers (w.asked + 2)).ret = 0
  swap
  · refine Or.inr (Or.inr (Or.inl ?_))
    refine ⟨⟨h0, h1, h2⟩, ?_⟩
    simp [Cli.main, find_eval, open_eval, send_eval, bind_apply, Prog.andThen, printf,
      fprintf_stderr, emit, pure_apply, sleep, IOObjectRelease, USBDeviceClose, DeviceRelease,
      deref, fault, kIOReturnSuccess, NULL, IO_OBJECT_NULL, h0, h1, h2]
  by_cases h3 : (w.answers (w.asked + 2)).out = 0
  · refine Or.inr (Or.inr (Or.inr (Or.inl ?_)))
    refine ⟨⟨h0, h1, h2, h3⟩, ?_⟩
    simp [Cli.main, find_eval, open_eval, send_eval, bind_apply, Prog.andThen, printf,
      fprintf_stderr, emit, pure_apply, sleep, IOObjectRelease, USBDeviceClose, DeviceRelease,
      deref, fault, kIOReturnSuccess, NULL, IO_OBJECT_NULL, h0, h1, h2, h3]
  by_cases h4 : (w.answers (w.asked + 3)).out = 0
  · refine Or.inr (Or.inr (Or.inr (Or.inr (Or.inl ?_))))
    refine ⟨⟨h0, h1, h2, h3, h4⟩, ?_⟩
    simp [Cli.main, find_eval, open_eval, send_eval, bind_apply, Prog.andThen, printf,
      fprintf_stderr, emit, pure_apply, sleep, IOObjectRelease, USBDeviceClose, DeviceRelease,
      deref, fault, kIOReturnSuccess, NULL, IO_OBJECT_NULL, h0, h1, h2, h3, h4]
  by_cases h5 : (w.answers (w.asked + 4)).ret = 0
  swap
  · refine Or.inr (Or.inr (Or.inr (Or.inr (Or.inr (Or.inl ?_)))))
    refine ⟨⟨h0, h1, h2, h3, h4, h5⟩, ?_⟩
    simp [Cli.main, find_eval, open_eval, send_eval, bind_apply, Prog.andThen, printf,
      fprintf_stderr, emit, pure_apply, sleep, IOObjectRelease, USBDeviceClose, DeviceRelease,
      deref, fault, kIOReturnSuccess, NULL, IO_OBJECT_NULL, h0, h1, h2, h3, h4, h5]
  by_cases h6 : (w.answers (w.asked + 5)).ret = 0
  swap
  · refine Or.inr (Or.inr (Or.inr (Or.inr (Or.inr (Or.inr (Or.inl ?_))))))
    refine ⟨⟨h0, h1, h2, h3, h4, h5, h6⟩, ?_⟩
    simp [Cli.main, find_eval, open_eval, send_eval, bind_apply, Prog.andThen, printf,
      fprintf_stderr, emit, pure_apply, sleep, IOObjectRelease, USBDeviceClose, DeviceRelease,
      deref, fault, kIOReturnSuccess, NULL, IO_OBJECT_NULL, h0, h1, h2, h3, h4, h5, h6]
  by_cases h7 : (w.answers (w.asked + 6)).ret = 0
  swap
  · refine Or.inr (Or.inr (Or.inr (Or.inr (Or.inr (Or.inr (Or.inr (Or.inl ?_)))))))
    refine ⟨⟨h0, h1, h2, h3, h4, h5, h6, h7⟩, ?_⟩
    simp [Cli.main, find_eval, open_eval, send_eval, bind_apply, Prog.andThen, printf,
      fprintf_stderr, emit, pure_apply, sleep, IOObjectRelease, USBDeviceClose, DeviceRelease,
      deref, fault, kIOReturnSuccess, NULL, IO_OBJECT_NULL, h0, h1, h2, h3, h4, h5, h6, h7]
  · refine Or.inr (Or.inr (Or.inr (Or.inr (Or.inr (Or.inr (Or.inr (Or.inr (?_))))))))
    refine ⟨⟨h0, h1, h2, h3, h4, h5, h6, h7⟩, ?_⟩
    simp [Cli.main, find_eval, open_eval, send_eval, bind_apply, Prog.andThen, printf,
      fprintf_stderr, emit, pure_apply, sleep, IOObjectRelease, USBDeviceClose, DeviceRelease,
      deref, fault, kIOReturnSuccess, NULL, IO_OBJECT_NULL, h0, h1, h2, h3, h4, h5, h6, h7]

/-! ## Programs only append to the trace -/

/-- The trace after `InitializePICController` is the trace before it followed by the
events of the call. -/
theorem pic_trace (dev : Ptr) (hdev : dev ≠ NULL) (w : World) :
    (Daemon.InitializePICController dev w).2.trace =
      w.trace ++ eventsOf (Daemon.InitializePICController dev) w := by
  by_cases h1 : (w.answers w.asked).ret = 0 <;>
    by_cases h2 : (w.answers (w.asked + 1)).ret = 0 <;>
      simp [eventsOf, pic_eval dev hdev, h1, h2]

/-- The trace after `InitializeUSBPreDevice` is the trace before it followed by the
events of the call. -/
theorem init_trace (device : io_service_t) (w : World) :
    (Daemon.InitializeUSBPreDevice device w).2.trace =
      w.trace ++ eventsOf (Daemon.InitializeUSBPreDevice device) w := by
  rcases init_cases device w with ⟨hc, he⟩ | ⟨hc, he⟩ | ⟨hc, he⟩ | ⟨hc, he⟩ | ⟨hc, he⟩ |
    ⟨hc, he⟩ | ⟨hc, he⟩ <;>
    simp [eventsOf, he]

/-- The trace after the tool's `main` is the trace before it followed by the events of
the run. -/
theorem main_trace (w : World) :
    (Cli.main w).2.trace = w.trace ++ eventsOf Cli.main w := by
  rcases main_cases w with ⟨hc, he⟩ | ⟨hc, he⟩ | ⟨hc, he⟩ | ⟨hc, he⟩ | ⟨hc, he⟩ |
    ⟨hc, he⟩ | ⟨hc, he⟩ | ⟨hc, he⟩ | ⟨hc, he⟩ <;>
    simp [eventsOf, he]

/-! ## One run of `InitializeUSBPreDevice`, seen from the loop -/

/-- Every call of `InitializeUSBPreDevice` returns; it extends the trace by events of
its own, among them exactly one read of the flag; and entered with the flag clear it
leaves the flag clear, makes its open attempt on its device, and does not skip. -/
theorem init_summary (device : io_service_t) (w : World) :
    ∃ (w1 : World) (run : List Event),
      Daemon.InitializeUSBPreDevice device w = (some (), w1) ∧
      w1.trace = w.trace ++ run ∧
      run.all (inRun device) = true ∧
      loads run = [w.initialization_in_progress] ∧
      (w.initialization_in_progress = 0 →
        w1.initialization_in_progress = 0 ∧ openAttempts run = [device] ∧ skipped ∉ run) := by
  rcases init_cases device w with ⟨hc, he⟩ | ⟨hc, he⟩ | ⟨hc, he⟩ | ⟨hc, he⟩ | ⟨hc, he⟩ |
    ⟨hc, he⟩ | ⟨hc, he⟩
  · exact ⟨_, _, he, rfl, by simp [inRun], by simp [loads], fun h => absurd h hc⟩
  all_goals
    refine ⟨_, _, he, rfl, by simp [inRun], by simp [loads, hc.1], fun _ => ?_⟩
    simp [openAttempts, skipped]

/-- One turn of the loop of `DeviceAddedCallback`, for an object that is not
`IO_OBJECT_NULL`. -/
theorem callback_cons (device : io_service_t) (iterator : List io_service_t) (w : World)
    (hd : device ≠ IO_OBJECT_NULL) :
    Daemon.DeviceAddedCallback (device :: iterator) w =
      Prog.andThen (Daemon.InitializeUSBPreDevice device)
        (fun _ => Prog.andThen (IOObjectRelease device)
          (fun _ => Daemon.DeviceAddedCallback iterator))
        { w with trace := w.trace ++
            [.IOIteratorNext device,
             .syslog LOG_NOTICE "USBPre: Device arrival detected" [], .sleep 1] } := by
  simp [Daemon.DeviceAddedCallback, bind_apply, Prog.andThen, emit, syslog, sleep, hd]

/-- The callback on an exhausted iterator. -/
theorem callback_nil (w : World) :
    Daemon.DeviceAddedCallback [] w =
      (some (), { w with trace := w.trace ++ [.IOIteratorNext IO_OBJECT_NULL] }) := by
  simp [Daemon.DeviceAddedCallback, emit]

/-- A callback entered with the flag clear returns with the flag clear; every read of
the flag in it yields `0`, it makes one open attempt per object, in order, and it never
skips. -/
theorem callback_free (devices : List io_service_t)
    (hvalid : ∀ d ∈ devices, d ≠ IO_OBJECT_NULL) (w : World)
    (hfree : w.initialization_in_progress = 0) :
    ∃ (w1 : World) (es : List Event),
      Daemon.DeviceAddedCallback devices w = (some (), w1) ∧
      w1.trace = w.trace ++ es ∧
      w1.initialization_in_progress = 0 ∧
      loads es = List.replicate devices.length 0 ∧
      openAttempts es = devices ∧
      skipped ∉ es := by
  induction devices generalizing w with
  | nil =>
    exact ⟨_, _, callback_nil w, rfl, hfree, by simp [loads], by simp [openAttempts],
      by simp [skipped]⟩
  | cons d ds ih =>
    have hd : d ≠ IO_OBJECT_NULL := hvalid d (List.mem_cons_self _ _)
    have hds : ∀ x ∈ ds, x ≠ IO_OBJECT_NULL := fun x hx => hvalid x (List.mem_cons_of_mem _ hx)
    obtain ⟨w1, run, he, ht, _, hl, hz⟩ := init_summary d
      { w with trace := w.trace ++
          [.IOIteratorNext d, .syslog LOG_NOTICE "USBPre: Device arrival detected" [],
           .sleep 1] }
    obtain ⟨hf1, ho, hs⟩ := hz hfree
    obtain ⟨w2, es, h1, h2, h3, h4, h5, h6⟩ :=
      ih hds { w1 with trace := w1.trace ++ [.IOObjectRelease d] } hf1
    have hstep : Daemon.DeviceAddedCallback (d :: ds) w =
        Daemon.DeviceAddedCallback ds { w1 with trace := w1.trace ++ [.IOObjectRelease d] } := by
      rw [callback_cons _ _ _ hd]
      simp only [Prog.andThen, he, IOObjectRelease, emit]
    refine ⟨w2, [.IOIteratorNext d, .syslog LOG_NOTICE "USBPre: Device arrival detected" [],
      .sleep 1] ++ run ++ [.IOObjectRelease d] ++ es, ?_, ?_, h3, ?_, ?_, ?_⟩
    · rw [hstep]
      exact h1
    · rw [h2]
      simp [ht]
    · have hl0 : loads run = [0] := by rw [hl]; simp [hfree]
      have h4a : loads es = List.replicate ds.length 0 := h4
      simp only [loads] at hl0 h4a
      simp [loads, List.filterMap_append, hl0, h4a, List.replicate_succ]
    · have h5a : openAttempts es = ds := h5
      simp only [openAttempts] at ho h5a
      simp [openAttempts, List.filterMap_append, ho, h5a]
    · simp [skipped] at hs h6 ⊢
      exact ⟨hs, h6⟩

/-- Serial callbacks started with the flag clear: the statement of `callback_free` for
the whole sequence. -/
theorem serial_free (callbacks : List (List io_service_t))
    (hvalid : ∀ it ∈ callbacks, ∀ d ∈ it, d ≠ IO_OBJECT_NULL) (w : World)
    (hfree : w.initialization_in_progress = 0) :
    ∃ (w1 : World) (es : List Event),
      Daemon.serialCallbacks callbacks w = (some (), w1) ∧
      w1.trace = w.trace ++ es ∧
      w1.initialization_in_progress = 0 ∧
      loads es = List.replicate callbacks.flatten.length 0 ∧
      openAttempts es = callbacks.flatten ∧
      skipped ∉ es := by
  induction callbacks generalizing w with
  | nil =>
    exact ⟨w, [], rfl, by simp, hfree, by simp [loads], by simp [openAttempts], by simp⟩
  | cons it later ih =>
    obtain ⟨w1, es1, h1, h2, h3, h4, h5, h6⟩ :=
      callback_free it (hvalid it (List.mem_cons_self _ _)) w hfree
    obtain ⟨w2, es2, k1, k2, k3, k4, k5, k6⟩ :=
      ih (fun x hx => hvalid x (List.mem_cons_of_mem _ hx)) w1 h3
    refine ⟨w2, es1 ++ es2, ?_, ?_, k3, ?_, ?_, ?_⟩
    · simp only [Daemon.serialCallbacks, bind_apply, Prog.andThen, h1]
      exact k1
    · rw [k2, h2, List.append_assoc]
    · simp only [loads] at h4 k4
      simp [loads, List.filterMap_append, h4, k4]
    · simp only [openAttempts] at h5 k5
      simp [openAttempts, List.filterMap_append, h5, k5]
    · simp [h6, k6]

/-! ## The re-entered daemon on a quiet host is the daemon -/

theorem during_quiet (e : Event) : Reentrant.during quietHost e = emit e := by
  funext w
  simp [Reentrant.during, quietHost, bind_apply, Prog.andThen, emit, pure_apply]

/-- On a host that runs nothing during a call, `InitializePICController` of the
re-entrant embedding is the one of `Daemon`. -/
theorem pic_quiet (dev : Ptr) :
    Reentrant.InitializePICController quietHost dev = Daemon.InitializePICController dev := by
  simp only [Reentrant.InitializePICController, Daemon.InitializePICController,
    Reentrant.syslog, Reentrant.sleep, Reentrant.DeviceRequest, during_quiet,
    syslog, sleep, DeviceRequest]

/-- On a host that runs nothing during a call, `InitializeUSBPreDevice` of the
re-entrant embedding is the one of `Daemon`. -/
theorem init_quiet (device : io_service_t) :
    Reentrant.InitializeUSBPreDevice quietHost device =
      Daemon.InitializeUSBPreDevice device := by
  simp only [Reentrant.InitializeUSBPreDevice, Daemon.InitializeUSBPreDevice, pic_quiet,
    Reentrant.syslog, Reentrant.IOCreatePlugInInterfaceForService, Reentrant.QueryInterface,
    Reentrant.PlugInRelease, Reentrant.USBDeviceOpen, Reentrant.USBDeviceClose,
    Reentrant.DeviceRelease, during_quiet, syslog, IOCreatePlugInInterfaceForService,
    QueryInterface, PlugInRelease, USBDeviceOpen, USBDeviceClose, DeviceRelease]

/-- On a host that runs nothing during a call, `DeviceAddedCallback` of the re-entrant
embedding is the one of `Daemon`. -/
theorem callback_quiet (iterator : List io_service_t) :
    Reentrant.DeviceAddedCallback quietHost iterator =
      Daemon.DeviceAddedCallback iterator := by
  induction iterator with
  | nil => simp only [Reentrant.DeviceAddedCallback, Daemon.DeviceAddedCallback, during_quiet]
  | cons d ds ih =>
    simp only [Reentrant.DeviceAddedCallback, Daemon.DeviceAddedCallback, during_quiet,
      init_quiet, ih, Reentrant.syslog, Reentrant.sleep, Reentrant.IOObjectRelease, syslog,
      sleep, IOObjectRelease]

/-! ## The daemon on a host that reads the flag during every call -/

/-- What `InitializeUSBPreDevice` does when entered with the flag clear on the host
that reads the flag during every call: one case for each way through the function.
After each call into the host the trace shows the value the host read. -/
theorem probed_cases (device : io_service_t) (w : World)
    (h0 : w.initialization_in_progress = 0) :
    ((((w.answers w.asked).ret ≠ 0 ∨ (w.answers w.asked).out = 0)) ∧
      Reentrant.InitializeUSBPreDevice probingHost device w =
        (some (), { w with initialization_in_progress := 0, asked := w.asked + 1, trace := w.trace ++ [
            .load_initialization_in_progress 0,
            .store_initialization_in_progress 1,
            .syslog LOG_INFO "USBPre: Device detected, opening interface" [],
            .load_initialization_in_progress 1,
            .IOCreatePlugInInterfaceForService device (w.answers w.asked).ret (w.answers w.asked).out,
            .load_initialization_in_progress 1,
            .syslog LOG_ERR "USBPre: Failed to create plugin interface: 0x%08x" [(w.answers w.asked).ret],
            .load_initialization_in_progress 1,
            .store_initialization_in_progress 0] })) ∨
    (((w.answers w.asked).ret = 0 ∧ (w.answers w.asked).out ≠ 0 ∧ ((w.answers (w.asked + 1)).ret ≠ 0 ∨ (w.answers (w.asked + 1)).out = 0)) ∧
      Reentrant.InitializeUSBPreDevice probingHost device w =
        (some (), { w with initialization_in_progress := 0, asked := w.asked + 2, trace := w.trace ++ [
            .load_initialization_in_progress 0,
            .store_initialization_in_progress 1,
            .syslog LOG_INFO "USBPre: Device detected, opening interface" [],
            .load_initialization_in_progress 1,
            .IOCreatePlugInInterfaceForService device (w.answers w.asked).ret (w.answers w.asked).out,
            .load_initialization_in_progress 1,
            .QueryInterface (w.answers w.asked).out (w.answers (w.asked + 1)).ret (w.answers (w.asked + 1)).out,
            .load_initialization_in_progress 1,
            .PlugInRelease (w.answers w.asked).out,
            .load_initialization_in_progress 1,
            .syslog LOG_ERR "USBPre: Failed to get device interface: 0x%08x" [(w.answers (w.asked + 1)).ret],
            .load_initialization_in_progress 1,
            .store_initialization_in_progress 0] })) ∨
    (((w.answers w.asked).ret = 0 ∧ (w.answers w.asked).out ≠ 0 ∧ (w.answers (w.asked + 1)).ret = 0 ∧ (w.answers (w.asked + 1)).out ≠ 0 ∧ (w.answers (w.asked + 2)).ret ≠ 0) ∧
      Reentrant.InitializeUSBPreDevice probingHost device w =
        (some (), { w with initialization_in_progress := 0, asked := w.asked + 3, trace := w.trace ++ [
            .load_initialization_in_progress 0,
            .store_initialization_in_progress 1,
            .syslog LOG_INFO "USBPre: Device detected, opening interface" [],
            .load_initialization_in_progress 1,
            .IOCreatePlugInInterfaceForService device (w.answers w.asked).ret (w.answers w.asked).out,
            .load_initialization_in_progress 1,
            .QueryInterface (w.answers w.asked).out (w.answers (w.asked + 1)).ret (w.answers (w.asked + 1)).out,
            .load_initialization_in_progress 1,
            .PlugInRelease (w.answers w.asked).out,
            .load_initialization_in_progress 1,
            .USBDeviceOpen (w.answers (w.asked + 1)).out (w.answers (w.asked + 2)).ret,
            .load_initialization_in_progress 1,
            .syslog LOG_ERR "USBPre: Failed to open device: 0x%08x" [(w.answers (w.asked + 2)).ret],
            .load_initialization_in_progress 1,
            .DeviceRelease (w.answers (w.asked + 1)).out,
            .load_initialization_in_progress 1,
            .store_initialization_in_progress 0] })) ∨
    (((w.answers w.asked).ret = 0 ∧ (w.answers w.asked).out ≠ 0 ∧ (w.answers (w.asked + 1)).ret = 0 ∧ (w.answers (w.asked + 1)).out ≠ 0 ∧ (w.answers (w.asked + 2)).ret = 0 ∧ (w.answers (w.asked + 3)).ret ≠ 0) ∧
      Reentrant.InitializeUSBPreDevice probingHost device w =
        (some (), { w with initialization_in_progress := 0, asked := w.asked + 4, trace := w.trace ++ [
            .load_initialization_in_progress 0,
            .store_initialization_in_progress 1,
            .syslog LOG_INFO "USBPre: Device detected, opening interface" [],
            .load_initialization_in_progress 1,
            .IOCreatePlugInInterfaceForService device (w.answers w.asked).ret (w.answers w.asked).out,
            .load_initialization_in_progress 1,
            .QueryInterface (w.answers w.asked).out (w.answers (w.asked + 1)).ret (w.answers (w.asked + 1)).out,
            .load_initialization_in_progress 1,
            .PlugInRelease (w.answers w.asked).out,
            .load_initialization_in_progress 1,
            .USBDeviceOpen (w.answers (w.asked + 1)).out (w.answers (w.asked + 2)).ret,
            .load_initialization_in_progress 1,
            .syslog LOG_NOTICE "USBPre: Starting PIC initialization" [],
            .load_initialization_in_progress 1,
            .DeviceRequest (w.answers (w.asked + 1)).out (command 0x81) (w.answers (w.asked + 3)).ret,
            .load_initialization_in_progress 1,
            .syslog LOG_ERR "USBPre: Command 1 failed: 0x%08x" [(w.answers (w.asked + 3)).ret],
            .load_initialization_in_progress 1,
            .USBDeviceClose (w.answers (w.asked + 1)).out,
            .load_initialization_in_progress 1,
            .DeviceRelease (w.answers (w.asked + 1)).out,
            .load_initialization_in_progress 1,
            .store_initialization_in_progress 0,
            .syslog LOG_ERR "USBPre: Initialization failed: 0x%08x" [(w.answers (w.asked + 3)).ret],
            .load_initialization_in_progress 0] })) ∨
    (((w.answers w.asked).ret = 0 ∧ (w.answers w.asked).out ≠ 0 ∧ (w.answers (w.asked + 1)).ret = 0 ∧ (w.answers (w.asked + 1)).out ≠ 0 ∧ (w.answers (w.asked + 2)).ret = 0 ∧ (w.answers (w.asked + 3)).ret = 0 ∧ (w.answers (w.asked + 4)).ret ≠ 0) ∧
      Reentrant.InitializeUSBPreDevice probingHost device w =
        (some (), { w with initialization_in_progress := 0, asked := w.asked + 5, trace := w.trace ++ [
            .load_initialization_in_progress 0,
            .store_initialization_in_progress 1,
            .syslog LOG_INFO "USBPre: Device detected, opening interface" [],
            .load_initialization_in_progress 1,
            .IOCreatePlugInInterfaceForService device (w.answers w.asked).ret (w.answers w.asked).out,
            .load_initialization_in_progress 1,
            .QueryInterface (w.answers w.asked).out (w.answers (w.asked + 1)).ret (w.answers (w.asked + 1)).out,
            .load_initialization_in_progress 1,
            .PlugInRelease (w.answers w.asked).out,
            .load_initialization_in_progress 1,
            .USBDeviceOpen (w.answers (w.asked + 1)).out (w.answers (w.asked + 2)).ret,
            .load_initialization_in_progress 1,
            .syslog LOG_NOTICE "USBPre: Starting PIC initialization" [],
            .load_initialization_in_progress 1,
            .DeviceRequest (w.answers (w.asked + 1)).out (command 0x81) (w.answers (w.asked + 3)).ret,
            .load_initialization_in_progress 1,
            .syslog LOG_INFO "USBPre: Command 1 (0x81) succeeded" [],
            .load_initialization_in_progress 1,
            .sleep 5,
            .load_initialization_in_progress 1,
            .DeviceRequest (w.answers (w.asked + 1)).out (command 0xC0) (w.answers (w.asked + 4)).ret,
            .load_initialization_in_progress 1,
            .syslog LOG_ERR "USBPre: Command 2 failed: 0x%08x" [(w.answers (w.asked + 4)).ret],
            .load_initialization_in_progress 1,
            .USBDeviceClose (w.answers (w.asked + 1)).out,
            .load_initialization_in_progress 1,
            .DeviceRelease (w.answers (w.asked + 1)).out,
            .load_initialization_in_progress 1,
            .store_initialization_in_progress 0,
            .syslog LOG_ERR "USBPre: Initialization failed: 0x%08x" [(w.answers (w.asked + 4)).ret],
            .load_initialization_in_progress 0] })) ∨
    (((w.answers w.asked).ret = 0 ∧ (w.answers w.asked).out ≠ 0 ∧ (w.answers (w.asked + 1)).ret = 0 ∧ (w.answers (w.asked + 1)).out ≠ 0 ∧ (w.answers (w.asked + 2)).ret = 0 ∧ (w.answers (w.asked + 3)).ret = 0 ∧ (w.answers (w.asked + 4)).ret = 0) ∧
      Reentrant.InitializeUSBPreDevice probingHost device w =
        (some (), { w with initialization_in_progress := 0, asked := w.asked + 5, trace := w.trace ++ [
            .load_initialization_in_progress 0,
            .store_initialization_in_progress 1,
            .syslog LOG_INFO "USBPre: Device detected, opening interface" [],
            .load_initialization_in_progress 1,
            .IOCreatePlugInInterfaceForService device (w.answers w.asked).ret (w.answers w.asked).out,
            .load_initialization_in_progress 1,
            .QueryInterface (w.answers w.asked).out (w.answers (w.asked + 1)).ret (w.answers (w.asked + 1)).out,
            .load_initialization_in_progress 1,
            .PlugInRelease (w.answers w.asked).out,
            .load_initialization_in_progress 1,
            .USBDeviceOpen (w.answers (w.asked + 1)).out (w.answers (w.asked + 2)).ret,
            .load_initialization_in_progress 1,
            .syslog LOG_NOTICE "USBPre: Starting PIC initialization" [],
            .load_initialization_in_progress 1,
            .DeviceRequest (w.answers (w.asked + 1)).out (command 0x81) (w.answers (w.asked + 3)).ret,
            .load_initialization_in_progress 1,
            .syslog LOG_INFO "USBPre: Command 1 (0x81) succeeded" [],
            .load_initialization_in_progress 1,
            .sleep 5,
            .load_initialization_in_progress 1,
            .DeviceRequest (w.answers (w.asked + 1)).out (command 0xC0) (w.answers (w.asked + 4)).ret,
            .load_initialization_in_progress 1,
            .syslog LOG_NOTICE "USBPre: PIC initialization complete (Command 2: 0xC0)" [],
            .load_initialization_in_progress 1,
            .USBDeviceClose (w.answers (w.asked + 1)).out,
            .load_initialization_in_progress 1,
            .DeviceRelease (w.answers (w.asked + 1)).out,
            .load_initialization_in_progress 1,
            .store_initialization_in_progress 0,
            .syslog LOG_NOTICE "USBPre: Successfully initialized - device ready" [],
            .load_initialization_in_progress 0] })) := by
  by_cases h1 : (w.answers w.asked).ret ≠ 0 ∨ (w.answers w.asked).out = 0
  · refine Or.inl ?_
    refine ⟨h1, ?_⟩
    simp [Reentrant.InitializeUSBPreDevice, Reentrant.InitializePICController,
      Reentrant.syslog, Reentrant.sleep, Reentrant.IOCreatePlugInInterfaceForService,
      Reentrant.QueryInterface, Reentrant.PlugInRelease, Reentrant.USBDeviceOpen,
      Reentrant.USBDeviceClose, Reentrant.DeviceRelease, Reentrant.DeviceRequest,
      Reentrant.during, bind_apply, Prog.andThen, emit, pure_apply, ask,
      load_initialization_in_progress, store_initialization_in_progress, deref,
      KERN_SUCCESS, kIOReturnSuccess, NULL, command, bmRequestType_eq, probingHost, h0, h1]
  have h1a : (w.answers w.asked).ret = 0 := by
    by_contra hc
    exact h1 (Or.inl hc)
  have h1b : ¬ (w.answers w.asked).out = 0 := fun hc => h1 (Or.inr hc)
  by_cases h2 : (w.answers (w.asked + 1)).ret ≠ 0 ∨ (w.answers (w.asked + 1)).out = 0
  · refine Or.inr (Or.inl ?_)
    refine ⟨⟨h1a, h1b, h2⟩, ?_⟩
    simp [Reentrant.InitializeUSBPreDevice, Reentrant.InitializePICController,
      Reentrant.syslog, Reentrant.sleep, Reentrant.IOCreatePlugInInterfaceForService,
      Reentrant.QueryInterface, Reentrant.PlugInRelease, Reentrant.USBDeviceOpen,
      Reentrant.USBDeviceClose, Reentrant.DeviceRelease, Reentrant.DeviceRequest,
      Reentrant.during, bind_apply, Prog.andThen, emit, pure_apply, ask,
      load_initialization_in_progress, store_initialization_in_progress, deref,
      KERN_SUCCESS, kIOReturnSuccess, NULL, command, bmRequestType_eq, probingHost, h0, h1a, h1b, h2]
  have h2a : (w.answers (w.asked + 1)).ret = 0 := by
    by_contra hc
    exact h2 (Or.inl hc)
  have h2b : ¬ (w.answers (w.asked + 1)).out = 0 := fun hc => h2 (Or.inr hc)
  by_cases h3 : (w.answers (w.asked + 2)).ret = 0
  swap
  · refine Or.inr (Or.inr (Or.inl ?_))
    refine ⟨⟨h1a, h1b, h2a, h2b, h3⟩, ?_⟩
    simp [Reentrant.InitializeUSBPreDevice, Reentrant.InitializePICController,
      Reentrant.syslog, Reentrant.sleep, Reentrant.IOCreatePlugInInterfaceForService,
      Reentrant.QueryInterface, Reentrant.PlugInRelease, Reentrant.USBDeviceOpen,
      Reentrant.USBDeviceClose, Reentrant.DeviceRelease, Reentrant.DeviceRequest,
      Reentrant.during, bind_apply, Prog.andThen, emit, pure_apply, ask,
      load_initialization_in_progress, store_initialization_in_progress, deref,
      KERN_SUCCESS, kIOReturnSuccess, NULL, command, bmRequestType_eq, probingHost, h0, h1a, h1b, h2a, h2b, h3]
  by_cases h4 : (w.answers (w.asked + 3)).ret = 0
  swap
  · refine Or.inr (Or.inr (Or.inr (Or.inl ?_)))
    refine ⟨⟨h1a, h1b, h2a, h2b, h3, h4⟩, ?_⟩
    simp [Reentrant.InitializeUSBPreDevice, Reentrant.InitializePICController,
      Reentrant.syslog, Reentrant.sleep, Reentrant.IOCreatePlugInInterfaceForService,
      Reentrant.QueryInterface, Reentrant.PlugInRelease, Reentrant.USBDeviceOpen,
      Reentrant.USBDeviceClose, Reentrant.DeviceRelease, Reentrant.DeviceRequest,
      Reentrant.during, bind_apply, Prog.andThen, emit, pure_apply, ask,
      load_initialization_in_progress, store_initialization_in_progress, deref,
      KERN_SUCCESS, kIOReturnSuccess, NULL, command, bmRequestType_eq, probingHost, h0, h1a, h1b, h2a, h2b, h3, h4]
  by_cases h5 : (w.answers (w.asked + 4)).ret = 0
  swap
  · refine Or.inr (Or.inr (Or.inr (Or.inr (Or.inl ?_))))
    refine ⟨⟨h1a, h1b, h2a, h2b, h3, h4, h5⟩, ?_⟩
    simp [Reentrant.InitializeUSBPreDevice, Reentrant.InitializePICController,
      Reentrant.syslog, Reentrant.sleep, Reentrant.IOCreatePlugInInterfaceForService,
      Reentrant.QueryInterface, Reentrant.PlugInRelease, Reentrant.USBDeviceOpen,
      Reentrant.USBDeviceClose, Reentrant.DeviceRelease, Reentrant.DeviceRequest,
      Reentrant.during, bind_apply, Prog.andThen, emit, pure_apply, ask,
      load_initialization_in_progress, store_initialization_in_progress, deref,
      KERN_SUCCESS, kIOReturnSuccess, NULL, command, bmRequestType_eq, probingHost, h0, h1a, h1b, h2a, h2b, h3, h4, h5]
  · refine Or.inr (Or.inr (Or.inr (Or.inr (Or.inr (?_)))))
    refine ⟨⟨h1a, h1b, h2a, h2b, h3, h4, h5⟩, ?_⟩
    simp [Reentrant.InitializeUSBPreDevice, Reentrant.InitializePICController,
      Reentrant.syslog, Reentrant.sleep, Reentrant.IOCreatePlugInInterfaceForService,
      Reentrant.QueryInterface, Reentrant.PlugInRelease, Reentrant.USBDeviceOpen,
      Reentrant.USBDeviceClose, Reentrant.DeviceRelease, Reentrant.DeviceRequest,
      Reentrant.during, bind_apply, Prog.andThen, emit, pure_apply, ask,
      load_initialization_in_progress, store_initialization_in_progress, deref,
      KERN_SUCCESS, kIOReturnSuccess, NULL, command, bmRequestType_eq, probingHost, h0, h1a, h1b, h2a, h2b, h3, h4, h5]

/-! ## The daemon on a host that delivers an arrival during the delay -/

/-- The callback for one object, entered while the flag is set: the object is turned
away. -/
theorem dropped_callback (device : io_service_t) (w : World)
    (hd : device ≠ IO_OBJECT_NULL) (hbusy : w.initialization_in_progress ≠ 0) :
    Daemon.DeviceAddedCallback [device] w =
      (some (), { w with trace := w.trace ++ [
          .IOIteratorNext device,
          .syslog LOG_NOTICE "USBPre: Device arrival detected" [],
          .sleep 1,
          .load_initialization_in_progress w.initialization_in_progress,
          .syslog LOG_INFO "USBPre: Initialization already in progress, skipping" [],
          .IOObjectRelease device,
          .IOIteratorNext IO_OBJECT_NULL] }) := by
  simp [Daemon.DeviceAddedCallback, Daemon.InitializeUSBPreDevice, bind_apply, Prog.andThen,
    syslog, sleep, IOObjectRelease, emit, pure_apply, load_initialization_in_progress, hd, hbusy]

set_option maxHeartbeats 2000000 in
/-- What the callback for the object `first` does when entered with the flag clear, on
the host that delivers the arrival of `second` during the 5-second delay and on the host
that delivers nothing: one case for each way through the function. -/
theorem delivered_cases (first second : io_service_t) (w : World)
    (hfirst : first ≠ IO_OBJECT_NULL) (hsecond : second ≠ IO_OBJECT_NULL)
    (h0 : w.initialization_in_progress = 0) :
    ((((w.answers w.asked).ret ≠ 0 ∨ (w.answers w.asked).out = 0)) ∧
      Reentrant.DeviceAddedCallback (deliveringHost [second]) [first] w =
        (some (), { w with initialization_in_progress := 0, asked := w.asked + 1, trace := w.trace ++ [
            .IOIteratorNext first,
            .syslog LOG_NOTICE "USBPre: Device arrival detected" [],
            .sleep 1,
            .load_initialization_in_progress 0,
            .store_initialization_in_progress 1,
            .syslog LOG_INFO "USBPre: Device detected, opening interface" [],
            .IOCreatePlugInInterfaceForService first (w.answers w.asked).ret (w.answers w.asked).out,
            .syslog LOG_ERR "USBPre: Failed to create plugin interface: 0x%08x" [(w.answers w.asked).ret],
            .store_initialization_in_progress 0,
            .IOObjectRelease first,
            .IOIteratorNext IO_OBJECT_NULL] }) ∧
      Daemon.DeviceAddedCallback [first] w =
        (some (), { w with initialization_in_progress := 0, asked := w.asked + 1, trace := w.trace ++ [
            .IOIteratorNext first,
            .syslog LOG_NOTICE "USBPre: Device arrival detected" [],
            .sleep 1,
            .load_initialization_in_progress 0,
            .store_initialization_in_progress 1,
            .syslog LOG_INFO "USBPre: Device detected, opening interface" [],
            .IOCreatePlugInInterfaceForService first (w.answers w.asked).ret (w.answers w.asked).out,
            .syslog LOG_ERR "USBPre: Failed to create plugin interface: 0x%08x" [(w.answers w.asked).ret],
            .store_initialization_in_progress 0,
            .IOObjectRelease first,
            .IOIteratorNext IO_OBJECT_NULL] })) ∨
    (((w.answers w.asked).ret = 0 ∧ (w.answers w.asked).out ≠ 0 ∧ ((w.answers (w.asked + 1)).ret ≠ 0 ∨ (w.answers (w.asked + 1)).out = 0)) ∧
      Reentrant.DeviceAddedCallback (deliveringHost [second]) [first] w =
        (some (), { w with initialization_in_progress := 0, asked := w.asked + 2, trace := w.trace ++ [
            .IOIteratorNext first,
            .syslog LOG_NOTICE "USBPre: Device arrival detected" [],
            .sleep 1,
            .load_initialization_in_progress 0,
            .store_initialization_in_progress 1,
            .syslog LOG_INFO "USBPre: Device detected, opening interface" [],
            .IOCreatePlugInInterfaceForService first (w.answers w.asked).ret (w.answers w.asked).out,
            .QueryInterface (w.answers w.asked).out (w.answers (w.asked + 1)).ret (w.answers (w.asked + 1)).out,
            .PlugInRelease (w.answers w.asked).out,
            .syslog LOG_ERR "USBPre: Failed to get device interface: 0x%08x" [(w.answers (w.asked + 1)).ret],
            .store_initialization_in_progress 0,
            .IOObjectRelease first,
            .IOIteratorNext IO_OBJECT_NULL] }) ∧
      Daemon.DeviceAddedCallback [first] w =
        (some (), { w with initialization_in_progress := 0, asked := w.asked + 2, trace := w.trace ++ [
            .IOIteratorNext first,
            .syslog LOG_NOTICE "USBPre: Device arrival detected" [],
            .sleep 1,
            .load_initialization_in_progress 0,
            .store_initialization_in_progress 1,
            .syslog LOG_INFO "USBPre: Device detected, opening interface" [],
            .IOCreatePlugInInterfaceForService first (w.answers w.asked).ret (w.answers w.asked).out,
            .QueryInterface (w.answers w.asked).out (w.answers (w.asked + 1)).ret (w.answers (w.asked + 1)).out,
            .PlugInRelease (w.answers w.asked).out,
            .syslog LOG_ERR "USBPre: Failed to get device interface: 0x%08x" [(w.answers (w.asked + 1)).ret],
            .store_initialization_in_progress 0,
            .IOObjectRelease first,
            .IOIteratorNext IO_OBJECT_NULL] })) ∨
    (((w.answers w.asked).ret = 0 ∧ (w.answers w.asked).out ≠ 0 ∧ (w.answers (w.asked + 1)).ret = 0 ∧ (w.answers (w.asked + 1)).out ≠ 0 ∧ (w.answers (w.asked + 2)).ret ≠ 0) ∧
      Reentrant.DeviceAddedCallback (deliveringHost [second]) [first] w =
        (some (), { w with initialization_in_progress := 0, asked := w.asked + 3, trace := w.trace ++ [
            .IOIteratorNext first,
            .syslog LOG_NOTICE "USBPre: Device arrival detected" [],
            .sleep 1,
            .load_initialization_in_progress 0,
            .store_initialization_in_progress 1,
            .syslog LOG_INFO "USBPre: Device detected, opening interface" [],
            .IOCreatePlugInInterfaceForService first (w.answers w.asked).ret (w.answers w.asked).out,
            .QueryInterface (w.answers w.asked).out (w.answers (w.asked + 1)).ret (w.answers (w.asked + 1)).out,
            .PlugInRelease (w.answers w.asked).out,
            .USBDeviceOpen (w.answers (w.asked + 1)).out (w.answers (w.asked + 2)).ret,
            .syslog LOG_ERR "USBPre: Failed to open device: 0x%08x" [(w.answers (w.asked + 2)).ret],
            .DeviceRelease (w.answers (w.asked + 1)).out,
            .store_initialization_in_progress 0,
            .IOObjectRelease first,
            .IOIteratorNext IO_OBJECT_NULL] }) ∧
      Daemon.DeviceAddedCallback [first] w =
        (some (), { w with initialization_in_progress := 0, asked := w.asked + 3, trace := w.trace ++ [
            .IOIteratorNext first,
            .syslog LOG_NOTICE "USBPre: Device arrival detected" [],
            .sleep 1,
            .load_initialization_in_progress 0,
            .store_initialization_in_progress 1,
            .syslog LOG_INFO "USBPre: Device detected, opening interface" [],
            .IOCreatePlugInInterfaceForService first (w.answers w.asked).ret (w.answers w.asked).out,
            .QueryInterface (w.answers w.asked).out (w.answers (w.asked + 1)).ret (w.answers (w.asked + 1)).out,
            .PlugInRelease (w.answers w.asked).out,
            .USBDeviceOpen (w.answers (w.asked + 1)).out (w.answers (w.asked + 2)).ret,
            .syslog LOG_ERR "USBPre: Failed to open device: 0x%08x" [(w.answers (w.asked + 2)).ret],
            .DeviceRelease (w.answers (w.asked + 1)).out,
            .store_initialization_in_progress 0,
            .IOObjectRelease first,
            .IOIteratorNext IO_OBJECT_NULL] })) ∨
    (((w.answers w.asked).ret = 0 ∧ (w.answers w.asked).out ≠ 0 ∧ (w.answers (w.asked + 1)).ret = 0 ∧ (w.answers (w.asked + 1)).out ≠ 0 ∧ (w.answers (w.asked + 2)).ret = 0 ∧ (w.answers (w.asked + 3)).ret ≠ 0) ∧
      Reentrant.DeviceAddedCallback (deliveringHost [second]) [first] w =
        (some (), { w with initialization_in_progress := 0, asked := w.asked + 4, trace := w.trace ++ [
            .IOIteratorNext first,
            .syslog LOG_NOTICE "USBPre: Device arrival detected" [],
            .sleep 1,
            .load_initialization_in_progress 0,
            .store_initialization_in_progress 1,
            .syslog LOG_INFO "USBPre: Device detected, opening interface" [],
            .IOCreatePlugInInterfaceForService first (w.answers w.asked).ret (w.answers w.asked).out,
            .QueryInterface (w.answers w.asked).out (w.answers (w.asked + 1)).ret (w.answers (w.asked + 1)).out,
            .PlugInRelease (w.answers w.asked).out,
            .USBDeviceOpen (w.answers (w.asked + 1)).out (w.answers (w.asked + 2)).ret,
            .syslog LOG_NOTICE "USBPre: Starting PIC initialization" [],
            .DeviceRequest (w.answers (w.asked + 1)).out (command 0x81) (w.answers (w.asked + 3)).ret,
            .syslog LOG_ERR "USBPre: Command 1 failed: 0x%08x" [(w.answers (w.asked + 3)).ret],
            .USBDeviceClose (w.answers (w.asked + 1)).out,
            .DeviceRelease (w.answers (w.asked + 1)).out,
            .store_initialization_in_progress 0,
            .syslog LOG_ERR "USBPre: Initialization failed: 0x%08x" [(w.answers (w.asked + 3)).ret],
            .IOObjectRelease first,
            .IOIteratorNext IO_OBJECT_NULL] }) ∧
      Daemon.DeviceAddedCallback [first] w =
        (some (), { w with initialization_in_progress := 0, asked := w.asked + 4, trace := w.trace ++ [
            .IOIteratorNext first,
            .syslog LOG_NOTICE "USBPre: Device arrival detected" [],
            .sleep 1,
            .load_initialization_in_progress 0,
            .store_initialization_in_progress 1,
            .syslog LOG_INFO "USBPre: Device detected, opening interface" [],
            .IOCreatePlugInInterfaceForService first (w.answers w.asked).ret (w.answers w.asked).out,
            .QueryInterface (w.answers w.asked).out (w.answers (w.asked + 1)).ret (w.answers (w.asked + 1)).out,
            .PlugInRelease (w.answers w.asked).out,
            .USBDeviceOpen (w.answers (w.asked + 1)).out (w.answers (w.asked + 2)).ret,
            .syslog LOG_NOTICE "USBPre: Starting PIC initialization" [],
            .DeviceRequest (w.answers (w.asked + 1)).out (command 0x81) (w.answers (w.asked + 3)).ret,
            .syslog LOG_ERR "USBPre: Command 1 failed: 0x%08x" [(w.answers (w.asked + 3)).ret],
            .USBDeviceClose (w.answers (w.asked + 1)).out,
            .DeviceRelease (w.answers (w.asked + 1)).out,
            .store_initialization_in_progress 0,
            .syslog LOG_ERR "USBPre: Initialization failed: 0x%08x" [(w.answers (w.asked + 3)).ret],
            .IOObjectRelease first,
            .IOIteratorNext IO_OBJECT_NULL] })) ∨
    (((w.answers w.asked).ret = 0 ∧ (w.answers w.asked).out ≠ 0 ∧ (w.answers (w.asked + 1)).ret = 0 ∧ (w.answers (w.asked + 1)).out ≠ 0 ∧ (w.answers (w.asked + 2)).ret = 0 ∧ (w.answers (w.asked + 3)).ret = 0 ∧ (w.answers (w.asked + 4)).ret ≠ 0) ∧
      Reentrant.DeviceAddedCallback (deliveringHost [second]) [first] w =
        (some (), { w with initialization_in_progress := 0, asked := w.asked + 5, trace := w.trace ++ [
            .IOIteratorNext first,
            .syslog LOG_NOTICE "USBPre: Device arrival detected" [],
            .sleep 1,
            .load_initialization_in_progress 0,
            .store_initialization_in_progress 1,
            .syslog LOG_INFO "USBPre: Device detected, opening interface" [],
            .IOCreatePlugInInterfaceForService first (w.answers w.asked).ret (w.answers w.asked).out,
            .QueryInterface (w.answers w.asked).out (w.answers (w.asked + 1)).ret (w.answers (w.asked + 1)).out,
            .PlugInRelease (w.answers w.asked).out,
            .USBDeviceOpen (w.answers (w.asked + 1)).out (w.answers (w.asked + 2)).ret,
            .syslog LOG_NOTICE "USBPre: Starting PIC initialization" [],
            .DeviceRequest (w.answers (w.asked + 1)).out (command 0x81) (w.answers (w.asked + 3)).ret,
            .syslog LOG_INFO "USBPre: Command 1 (0x81) succeeded" [],
            .sleep 5,
            .IOIteratorNext second,
            .syslog LOG_NOTICE "USBPre: Device arrival detected" [],
            .sleep 1,
            .load_initialization_in_progress 1,
            .syslog LOG_INFO "USBPre: Initialization already in progress, skipping" [],
            .IOObjectRelease second,
            .IOIteratorNext IO_OBJECT_NULL,
            .DeviceRequest (w.answers (w.asked + 1)).out (command 0xC0) (w.answers (w.asked + 4)).ret,
            .syslog LOG_ERR "USBPre: Command 2 failed: 0x%08x" [(w.answers (w.asked + 4)).ret],
            .USBDeviceClose (w.answers (w.asked + 1)).out,
            .DeviceRelease (w.answers (w.asked + 1)).out,
            .store_initialization_in_progress 0,
            .syslog LOG_ERR "USBPre: Initialization failed: 0x%08x" [(w.answers (w.asked + 4)).ret],
            .IOObjectRelease first,
            .IOIteratorNext IO_OBJECT_NULL] }) ∧
      Daemon.DeviceAddedCallback [first] w =
        (some (), { w with initialization_in_progress := 0, asked := w.asked + 5, trace := w.trace ++ [
            .IOIteratorNext first,
            .syslog LOG_NOTICE "USBPre: Device arrival detected" [],
            .sleep 1,
            .load_initialization_in_progress 0,
            .store_initialization_in_progress 1,
            .syslog LOG_INFO "USBPre: Device detected, opening interface" [],
            .IOCreatePlugInInterfaceForService first (w.answers w.asked).ret (w.answers w.asked).out,
            .QueryInterface (w.answers w.asked).out (w.answers (w.asked + 1)).ret (w.answers (w.asked + 1)).out,
            .PlugInRelease (w.answers w.asked).out,
            .USBDeviceOpen (w.answers (w.asked + 1)).out (w.answers (w.asked + 2)).ret,
            .syslog LOG_NOTICE "USBPre: Starting PIC initialization" [],
            .DeviceRequest (w.answers (w.asked + 1)).out (command 0x81) (w.answers (w.asked + 3)).ret,
            .syslog LOG_INFO "USBPre: Command 1 (0x81) succeeded" [],
            .sleep 5,
            .DeviceRequest (w.answers (w.asked + 1)).out (command 0xC0) (w.answers (w.asked + 4)).ret,
            .syslog LOG_ERR "USBPre: Command 2 failed: 0x%08x" [(w.answers (w.asked + 4)).ret],
            .USBDeviceClose (w.answers (w.asked + 1)).out,
            .DeviceRelease (w.answers (w.asked + 1)).out,
            .store_initialization_in_progress 0,
            .syslog LOG_ERR "USBPre: Initialization failed: 0x%08x" [(w.answers (w.asked + 4)).ret],
            .IOObjectRelease first,
            .IOIteratorNext IO_OBJECT_NULL] })) ∨
    (((w.answers w.asked).ret = 0 ∧ (w.answers w.asked).out ≠ 0 ∧ (w.answers (w.asked + 1)).ret = 0 ∧ (w.answers (w.asked + 1)).out ≠ 0 ∧ (w.answers (w.asked + 2)).ret = 0 ∧ (w.answers (w.asked + 3)).ret = 0 ∧ (w.answers (w.asked + 4)).ret = 0) ∧
      Reentrant.DeviceAddedCallback (deliveringHost [second]) [first] w =
        (some (), { w with initialization_in_progress := 0, asked := w.asked + 5, trace := w.trace ++ [
            .IOIteratorNext first,
            .syslog LOG_NOTICE "USBPre: Device arrival detected" [],
            .sleep 1,
            .load_initialization_in_progress 0,
            .store_initialization_in_progress 1,
            .syslog LOG_INFO "USBPre: Device detected, opening interface" [],
            .IOCreatePlugInInterfaceForService first (w.answers w.asked).ret (w.answers w.asked).out,
            .QueryInterface (w.answers w.asked).out (w.answers (w.asked + 1)).ret (w.answers (w.asked + 1)).out,
            .PlugInRelease (w.answers w.asked).out,
            .USBDeviceOpen (w.answers (w.asked + 1)).out (w.answers (w.asked + 2)).ret,
            .syslog LOG_NOTICE "USBPre: Starting PIC initialization" [],
            .DeviceRequest (w.answers (w.asked + 1)).out (command 0x81) (w.answers (w.asked + 3)).ret,
            .syslog LOG_INFO "USBPre: Command 1 (0x81) succeeded" [],
            .sleep 5,
            .IOIteratorNext second,
            .syslog LOG_NOTICE "USBPre: Device arrival detected" [],
            .sleep 1,
            .load_initialization_in_progress 1,
            .syslog LOG_INFO "USBPre: Initialization already in progress, skipping" [],
            .IOObjectRelease second,
            .IOIteratorNext IO_OBJECT_NULL,
            .DeviceRequest (w.answers (w.asked + 1)).out (command 0xC0) (w.answers (w.asked + 4)).ret,
            .syslog LOG_NOTICE "USBPre: PIC initialization complete (Command 2: 0xC0)" [],
            .USBDeviceClose (w.answers (w.asked + 1)).out,
            .DeviceRelease (w.answers (w.asked + 1)).out,
            .store_initialization_in_progress 0,
            .syslog LOG_NOTICE "USBPre: Successfully initialized - device ready" [],
            .IOObjectRelease first,
            .IOIteratorNext IO_OBJECT_NULL] }) ∧
      Daemon.DeviceAddedCallback [first] w =
        (some (), { w with initialization_in_progress := 0, asked := w.asked + 5, trace := w.trace ++ [
            .IOIteratorNext first,
            .syslog LOG_NOTICE "USBPre: Device arrival detected" [],
            .sleep 1,
            .load_initialization_in_progress 0,
            .store_initialization_in_progress 1,
            .syslog LOG_INFO "USBPre: Device detected, opening interface" [],
            .IOCreatePlugInInterfaceForService first (w.answers w.asked).ret (w.answers w.asked).out,
            .QueryInterface (w.answers w.asked).out (w.answers (w.asked + 1)).ret (w.answers (w.asked + 1)).out,
            .PlugInRelease (w.answers w.asked).out,
            .USBDeviceOpen (w.answers (w.asked + 1)).out (w.answers (w.asked + 2)).ret,
            .syslog LOG_NOTICE "USBPre: Starting PIC initialization" [],
            .DeviceRequest (w.answers (w.asked + 1)).out (command 0x81) (w.answers (w.asked + 3)).ret,
            .syslog LOG_INFO "USBPre: Command 1 (0x81) succeeded" [],
            .sleep 5,
            .DeviceRequest (w.answers (w.asked + 1)).out (command 0xC0) (w.answers (w.asked + 4)).ret,
            .syslog LOG_NOTICE "USBPre: PIC initialization complete (Command 2: 0xC0)" [],
            .USBDeviceClose (w.answers (w.asked + 1)).out,
            .DeviceRelease (w.answers (w.asked + 1)).out,
            .store_initialization_in_progress 0,
            .syslog LOG_NOTICE "USBPre: Successfully initialized - device ready" [],
            .IOObjectRelease first,
            .IOIteratorNext IO_OBJECT_NULL] })) := by
  by_cases h1 : (w.answers w.asked).ret ≠ 0 ∨ (w.answers w.asked).out = 0
  · refine Or.inl ?_
    refine ⟨h1, ?_, ?_⟩
    · simp [Reentrant.DeviceAddedCallback, Reentrant.InitializeUSBPreDevice,
        Reentrant.InitializePICController, Reentrant.syslog, Reentrant.sleep,
        Reentrant.IOCreatePlugInInterfaceForService, Reentrant.QueryInterface,
        Reentrant.PlugInRelease, Reentrant.USBDeviceOpen, Reentrant.USBDeviceClose,
        Reentrant.DeviceRelease, Reentrant.DeviceRequest, Reentrant.IOObjectRelease,
        Reentrant.during, deliveringHost, dropped_callback, bind_apply, Prog.andThen, emit,
        pure_apply, ask, load_initialization_in_progress, store_initialization_in_progress,
        deref, KERN_SUCCESS, kIOReturnSuccess, NULL, command, bmRequestType_eq, hfirst,
        hsecond, h0, h1]
    · simp [Daemon.DeviceAddedCallback, Daemon.InitializeUSBPreDevice,
        Daemon.InitializePICController, syslog, sleep, IOCreatePlugInInterfaceForService,
        QueryInterface, PlugInRelease, USBDeviceOpen, USBDeviceClose, DeviceRelease,
        DeviceRequest, IOObjectRelease, bind_apply, Prog.andThen, emit, pure_apply, ask,
        load_initialization_in_progress, store_initialization_in_progress, deref,
        KERN_SUCCESS, kIOReturnSuccess, NULL, command, bmRequestType_eq, hfirst, h0, h1]
  have h1a : (w.answers w.asked).ret = 0 := by
    by_contra hc
    exact h1 (Or.inl hc)
  have h1b : ¬ (w.answers w.asked).out = 0 := fun hc => h1 (Or.inr hc)
  by_cases h2 : (w.answers (w.asked + 1)).ret ≠ 0 ∨ (w.answers (w.asked + 1)).out = 0
  · refine Or.inr (Or.inl ?_)
    refine ⟨⟨h1a, h1b, h2⟩, ?_, ?_⟩
    · simp [Reentrant.DeviceAddedCallback, Reentrant.InitializeUSBPreDevice,
        Reentrant.InitializePICController, Reentrant.syslog, Reentrant.sleep,
        Reentrant.IOCreatePlugInInterfaceForService, Reentrant.QueryInterface,
        Reentrant.PlugInRelease, Reentrant.USBDeviceOpen, Reentrant.USBDeviceClose,
        Reentrant.DeviceRelease, Reentrant.DeviceRequest, Reentrant.IOObjectRelease,
        Reentrant.during, deliveringHost, dropped_callback, bind_apply, Prog.andThen, emit,
        pure_apply, ask, load_initialization_in_progress, store_initialization_in_progress,
        deref, KERN_SUCCESS, kIOReturnSuccess, NULL, command, bmRequestType_eq, hfirst,
        hsecond, h0, h1a, h1b, h2]
    · simp [Daemon.DeviceAddedCallback, Daemon.InitializeUSBPreDevice,
        Daemon.InitializePICController, syslog, sleep, IOCreatePlugInInterfaceForService,
        QueryInterface, PlugInRelease, USBDeviceOpen, USBDeviceClose, DeviceRelease,
        DeviceRequest, IOObjectRelease, bind_apply, Prog.andThen, emit, pure_apply, ask,
        load_initialization_in_progress, store_initialization_in_progress, deref,
        KERN_SUCCESS, kIOReturnSuccess, NULL, command, bmRequestType_eq, hfirst, h0, h1a, h1b, h2]
  have h2a : (w.answers (w.asked + 1)).ret = 0 := by
    by_contra hc
    exact h2 (Or.inl hc)
  have h2b : ¬ (w.answers (w.asked + 1)).out = 0 := fun hc => h2 (Or.inr hc)
  by_cases h3 : (w.answers (w.asked + 2)).ret = 0
  swap
  · refine Or.inr (Or.inr (Or.inl ?_))
    refine ⟨⟨h1a, h1b, h2a, h2b, h3⟩, ?_, ?_⟩
    · simp [Reentrant.DeviceAddedCallback, Reentrant.InitializeUSBPreDevice,
        Reentrant.InitializePICController, Reentrant.syslog, Reentrant.sleep,
        Reentrant.IOCreatePlugInInterfaceForService, Reentrant.QueryInterface,
        Reentrant.PlugInRelease, Reentrant.USBDeviceOpen, Reentrant.USBDeviceClose,
        Reentrant.DeviceRelease, Reentrant.DeviceRequest, Reentrant.IOObjectRelease,
        Reentrant.during, deliveringHost, dropped_callback, bind_apply, Prog.andThen, emit,
        pure_apply, ask, load_initialization_in_progress, store_initialization_in_progress,
        deref, KERN_SUCCESS, kIOReturnSuccess, NULL, command, bmRequestType_eq, hfirst,
        hsecond, h0, h1a, h1b, h2a, h2b, h3]
    · simp [Daemon.DeviceAddedCallback, Daemon.InitializeUSBPreDevice,
        Daemon.InitializePICController, syslog, sleep, IOCreatePlugInInterfaceForService,
        QueryInterface, PlugInRelease, USBDeviceOpen, USBDeviceClose, DeviceRelease,
        DeviceRequest, IOObjectRelease, bind_apply, Prog.andThen, emit, pure_apply, ask,
        load_initialization_in_progress, store_initialization_in_progress, deref,
        KERN_SUCCESS, kIOReturnSuccess, NULL, command, bmRequestType_eq, hfirst, h0, h1a, h1b, h2a, h2b, h3]
  by_cases h4 : (w.answers (w.asked + 3)).ret = 0
  swap
  · refine Or.inr (Or.inr (Or.inr (Or.inl ?_)))
    refine ⟨⟨h1a, h1b, h2a, h2b, h3, h4⟩, ?_, ?_⟩
    · simp [Reentrant.DeviceAddedCallback, Reentrant.InitializeUSBPreDevice,
        Reentrant.InitializePICController, Reentrant.syslog, Reentrant.sleep,
        Reentrant.IOCreatePlugInInterfaceForService, Reentrant.QueryInterface,
        Reentrant.PlugInRelease, Reentrant.USBDeviceOpen, Reentrant.USBDeviceClose,
        Reentrant.DeviceRelease, Reentrant.DeviceRequest, Reentrant.IOObjectRelease,
        Reentrant.during, deliveringHost, dropped_callback, bind_apply, Prog.andThen, emit,
        pure_apply, ask, load_initialization_in_progress, store_initialization_in_progress,
        deref, KERN_SUCCESS, kIOReturnSuccess, NULL, command, bmRequestType_eq, hfirst,
        hsecond, h0, h1a, h1b, h2a, h2b, h3, h4]
    · simp [Daemon.DeviceAddedCallback, Daemon.InitializeUSBPreDevice,
        Daemon.InitializePICController, syslog, sleep, IOCreatePlugInInterfaceForService,
        QueryInterface, PlugInRelease, USBDeviceOpen, USBDeviceClose, DeviceRelease,
        DeviceRequest, IOObjectRelease, bind_apply, Prog.andThen, emit, pure_apply, ask,
        load_initialization_in_progress, store_initialization_in_progress, deref,
        KERN_SUCCESS, kIOReturnSuccess, NULL, command, bmRequestType_eq, hfirst, h0, h1a, h1b, h2a, h2b, h3, h4]
  by_cases h5 : (w.answers (w.asked + 4)).ret = 0
  swap
  · refine Or.inr (Or.inr (Or.inr (Or.inr (Or.inl ?_))))
    refine ⟨⟨h1a, h1b, h2a, h2b, h3, h4, h5⟩, ?_, ?_⟩
    · simp [Reentrant.DeviceAddedCallback, Reentrant.InitializeUSBPreDevice,
        Reentrant.InitializePICController, Reentrant.syslog, Reentrant.sleep,
        Reentrant.IOCreatePlugInInterfaceForService, Reentrant.QueryInterface,
        Reentrant.PlugInRelease, Reentrant.USBDeviceOpen, Reentrant.USBDeviceClose,
        Reentrant.DeviceRelease, Reentrant.DeviceRequest, Reentrant.IOObjectRelease,
        Reentrant.during, deliveringHost, dropped_callback, bind_apply, Prog.andThen, emit,
        pure_apply, ask, load_initialization_in_progress, store_initialization_in_progress,
        deref, KERN_SUCCESS, kIOReturnSuccess, NULL, command, bmRequestType_eq, hfirst,
        hsecond, h0, h1a, h1b, h2a, h2b, h3, h4, h5]
    · simp [Daemon.DeviceAddedCallback, Daemon.InitializeUSBPreDevice,
        Daemon.InitializePICController, syslog, sleep, IOCreatePlugInInterfaceForService,
        QueryInterface, PlugInRelease, USBDeviceOpen, USBDeviceClose, DeviceRelease,
        DeviceRequest, IOObjectRelease, bind_apply, Prog.andThen, emit, pure_apply, ask,
        load_initialization_in_progress, store_initialization_in_progress, deref,
        KERN_SUCCESS, kIOReturnSuccess, NULL, command, bmRequestType_eq, hfirst, h0, h1a, h1b, h2a, h2b, h3, h4, h5]
  · refine Or.inr (Or.inr (Or.inr (Or.inr (Or.inr (?_)))))
    refine ⟨⟨h1a, h1b, h2a, h2b, h3, h4, h5⟩, ?_, ?_⟩
    · simp [Reentrant.DeviceAddedCallback, Reentrant.InitializeUSBPreDevice,
        Reentrant.InitializePICController, Reentrant.syslog, Reentrant.sleep,
        Reentrant.IOCreatePlugInInterfaceForService, Reentrant.QueryInterface,
        Reentrant.PlugInRelease, Reentrant.USBDeviceOpen, Reentrant.USBDeviceClose,
        Reentrant.DeviceRelease, Reentrant.DeviceRequest, Reentrant.IOObjectRelease,
        Reentrant.during, deliveringHost, dropped_callback, bind_apply, Prog.andThen, emit,
        pure_apply, ask, load_initialization_in_progress, store_initialization_in_progress,
        deref, KERN_SUCCESS, kIOReturnSuccess, NULL, command, bmRequestType_eq, hfirst,
        hsecond, h0, h1a, h1b, h2a, h2b, h3, h4, h5]
    · simp [Daemon.DeviceAddedCallback, Daemon.InitializeUSBPreDevice,
        Daemon.InitializePICController, syslog, sleep, IOCreatePlugInInterfaceForService,
        QueryInterface, PlugInRelease, USBDeviceOpen, USBDeviceClose, DeviceRelease,
        DeviceRequest, IOObjectRelease, bind_apply, Prog.andThen, emit, pure_apply, ask,
        load_initialization_in_progress, store_initialization_in_progress, deref,
        KERN_SUCCESS, kIOReturnSuccess, NULL, command, bmRequestType_eq, hfirst, h0, h1a, h1b, h2a, h2b, h3, h4, h5]

/-- On a host where every call succeeds, the callback for device 7 reaches its delay
while the arrival of device 9 is delivered there. -/
theorem sample_delay_reached :
    Event.sleep 5 ∈
      eventsOf (Reentrant.DeviceAddedCallback (deliveringHost [9]) [7]) hostAllSucceed := by
  rcases delivered_cases 7 9 hostAllSucceed (by decide) (by decide) rfl with
    ⟨hc, _, _⟩ | ⟨hc, _, _⟩ | ⟨hc, _, _⟩ | ⟨hc, _, _⟩ | ⟨hc, _, _⟩ | ⟨_, he, _⟩
  · simp [hostAllSucceed] at hc
  · simp [hostAllSucceed] at hc
  · simp [hostAllSucceed] at hc
  · simp [hostAllSucceed] at hc
  · simp [hostAllSucceed] at hc
  · simp [eventsOf, he]

/-! ## The handshake -/

/-- C1, handshake ordering.  In the daemon's `InitializePICController`, for every result
of the two transfers: the function returns the result of the `0x81` transfer when that is
an error, and the result of the `0xC0` transfer otherwise; its transfers and delays are
the `0x81` transfer, then `sleep(5)`, then the `0xC0` transfer when the first returned
success, and the `0x81` transfer alone when it did not.  In the one-shot tool's `main`,
for every result of every call: the transfers and delays are either none at all, or the
`0x81` transfer alone, which then returned an error and the exit code is 1, or the `0x81`
transfer which returned success, then `sleep(5)`, then the `0xC0` transfer.  So the
`0xC0` command is sent exactly when the `0x81` command was sent first and succeeded, one
`sleep(5)` lies between them, and no command is sent twice. -/
theorem handshake_ordering (dev : Ptr) (hdev : dev ≠ NULL) (w : World) :
    (Daemon.InitializePICController dev w).1 =
        some (if (w.answers w.asked).ret ≠ 0 then (w.answers w.asked).ret
              else (w.answers (w.asked + 1)).ret) ∧
    handshake (eventsOf (Daemon.InitializePICController dev) w) =
        (if (w.answers w.asked).ret = 0 then
          [.DeviceRequest dev (command 0x81) (w.answers w.asked).ret, .sleep 5,
           .DeviceRequest dev (command 0xC0) (w.answers (w.asked + 1)).ret]
         else [.DeviceRequest dev (command 0x81) (w.answers w.asked).ret]) ∧
    ∃ (handle : Ptr) (r1 r2 : IOReturn),
      handshake (eventsOf Cli.main w) = [] ∨
      (r1 ≠ 0 ∧ (Cli.main w).1 = some 1 ∧
        handshake (eventsOf Cli.main w) = [.DeviceRequest handle (command 0x81) r1]) ∨
      (r1 = 0 ∧
        handshake (eventsOf Cli.main w) =
          [.DeviceRequest handle (command 0x81) r1, .sleep 5,
           .DeviceRequest handle (command 0xC0) r2]) := by
  refine ⟨?_, ?_, (w.answers (w.asked + 3)).out, (w.answers (w.asked + 5)).ret,
    (w.answers (w.asked + 6)).ret, ?_⟩
  · by_cases h1 : (w.answers w.asked).ret = 0 <;>
      by_cases h2 : (w.answers (w.asked + 1)).ret = 0 <;>
        simp [pic_eval dev hdev, h1, h2]
  · by_cases h1 : (w.answers w.asked).ret = 0 <;>
      by_cases h2 : (w.answers (w.asked + 1)).ret = 0 <;>
        simp [eventsOf, pic_eval dev hdev, handshake, isHandshake, h1, h2]
  · rcases main_cases w with ⟨hc, he⟩ | ⟨hc, he⟩ | ⟨hc, he⟩ | ⟨hc, he⟩ | ⟨hc, he⟩ |
      ⟨hc, he⟩ | ⟨hc, he⟩ | ⟨hc, he⟩ | ⟨hc, he⟩ <;>
      simp [eventsOf, he, handshake, isHandshake, hc]

/-- Witness of C1 on a host where every call succeeds. -/
theorem handshake_ordering_witness :
    (1 : Ptr) ≠ NULL ∧
    ((Daemon.InitializePICController 1 hostAllSucceed).1 =
        some (if (hostAllSucceed.answers hostAllSucceed.asked).ret ≠ 0 then
                (hostAllSucceed.answers hostAllSucceed.asked).ret
              else (hostAllSucceed.answers (hostAllSucceed.asked + 1)).ret) ∧
    handshake (eventsOf (Daemon.InitializePICController 1) hostAllSucceed) =
        (if (hostAllSucceed.answers hostAllSucceed.asked).ret = 0 then
          [.DeviceRequest 1 (command 0x81) (hostAllSucceed.answers hostAllSucceed.asked).ret,
           .sleep 5,
           .DeviceRequest 1 (command 0xC0)
             (hostAllSucceed.answers (hostAllSucceed.asked + 1)).ret]
         else
          [.DeviceRequest 1 (command 0x81)
             (hostAllSucceed.answers hostAllSucceed.asked).ret]) ∧
    ∃ (handle : Ptr) (r1 r2 : IOReturn),
      handshake (eventsOf Cli.main hostAllSucceed) = [] ∨
      (r1 ≠ 0 ∧ (Cli.main hostAllSucceed).1 = some 1 ∧
        handshake (eventsOf Cli.main hostAllSucceed) =
          [.DeviceRequest handle (command 0x81) r1]) ∨
      (r1 = 0 ∧
        handshake (eventsOf Cli.main hostAllSucceed) =
          [.DeviceRequest handle (command 0x81) r1, .sleep 5,
           .DeviceRequest handle (command 0xC0) r2])) :=
  ⟨by decide, handshake_ordering 1 (by decide) hostAllSucceed⟩

/-- C2, wire protocol.  The request byte built for both programs is `0x40`.  The
requests of the transfers of the daemon's `InitializePICController` are, in order,
`command 0x81` alone or `command 0x81` followed by `command 0xC0`; the one transfer of
the tool's `send_pic_command dev data` carries `command data`; and the requests of the
transfers of the tool's `main` are none, `command 0x81` alone, or `command 0x81` followed
by `command 0xC0`.  Here `command data` has `bmRequestType = 0x40`, `bRequest = 0x01`,
`wValue = 0x00F0`, `wIndex = 0x01F0`, `wLength = 1` and payload byte `data`, so the
daemon's second transfer has the `bmRequestType` and `bRequest` of its first. -/
theorem wire_protocol (dev : Ptr) (hdev : dev ≠ NULL) (data : Nat) (w : World) :
    USBmakebmRequestType kUSBOut kUSBVendor kUSBDevice = 0x40 ∧
    (command data).bmRequestType = 0x40 ∧ (command data).bRequest = 0x01 ∧
    (command data).wValue = 0x00F0 ∧ (command data).wIndex = 0x01F0 ∧
    (command data).wLength = 1 ∧ (command data).pData = data ∧
    (transfers (eventsOf (Daemon.InitializePICController dev) w) = [command 0x81] ∨
     transfers (eventsOf (Daemon.InitializePICController dev) w) =
       [command 0x81, command 0xC0]) ∧
    transfers (eventsOf (Cli.send_pic_command dev data) w) = [command data] ∧
    (transfers (eventsOf Cli.main w) = [] ∨
     transfers (eventsOf Cli.main w) = [command 0x81] ∨
     transfers (eventsOf Cli.main w) = [command 0x81, command 0xC0]) := by
  have hd : ¬ dev = 0 := hdev
  refine ⟨bmRequestType_eq, rfl, rfl, rfl, rfl, rfl, rfl, ?_, ?_, ?_⟩
  · by_cases h1 : (w.answers w.asked).ret = 0 <;>
      by_cases h2 : (w.answers (w.asked + 1)).ret = 0 <;>
        simp [eventsOf, pic_eval dev hdev, transfers, h1, h2]
  · simp [eventsOf, send_eval, transfers, hd]
  · rcases main_cases w with ⟨hc, he⟩ | ⟨hc, he⟩ | ⟨hc, he⟩ | ⟨hc, he⟩ | ⟨hc, he⟩ |
      ⟨hc, he⟩ | ⟨hc, he⟩ | ⟨hc, he⟩ | ⟨hc, he⟩ <;>
      simp [eventsOf, he, transfers]

/-- Witness of C2: on a host where every call succeeds, the daemon sends both commands
and the tool's `send_pic_command` sends the byte it is given. -/
theorem wire_protocol_witness :
    (1 : Ptr) ≠ NULL ∧
    transfers (eventsOf (Daemon.InitializePICController 1) hostAllSucceed) =
      [command 0x81, command 0xC0] ∧
    transfers (eventsOf (Cli.send_pic_command 1 0x81) hostAllSucceed) = [command 0x81] := by
  have h := wire_protocol 1 (by decide) 0x81 hostAllSucceed
  exact ⟨by decide, by decide, h.2.2.2.2.2.2.2.2.1⟩

/-! ## The guard and the handle in `InitializeUSBPreDevice` -/

/-- C3, guard release.  A call of `InitializeUSBPreDevice` entered with
`initialization_in_progress = 0` returns, whatever the results of the calls it makes; it
writes the flag exactly twice, first `1` and then `0`; and the flag is `0` when it
returns.  The writes take effect on the flag itself: on the host that reads the flag
during every call the daemon makes, the call also returns with the flag `0`, and the
reads and writes of the flag are, in order, the read of `0` at entry, the write of `1`,
then reads that all yield `1` (there is at least one), the write of `0`, and after it
only reads that yield `0`. -/
theorem guard_release (device : io_service_t) (w : World)
    (hfree : w.initialization_in_progress = 0) :
    (Daemon.InitializeUSBPreDevice device w).1 = some () ∧
    stores (eventsOf (Daemon.InitializeUSBPreDevice device) w) = [1, 0] ∧
    (Daemon.InitializeUSBPreDevice device w).2.initialization_in_progress = 0 ∧
    (Reentrant.InitializeUSBPreDevice probingHost device w).1 = some () ∧
    (Reentrant.InitializeUSBPreDevice probingHost device w).2.initialization_in_progress = 0 ∧
    ∃ held released : List Event,
      flagAccesses (eventsOf (Reentrant.InitializeUSBPreDevice probingHost device) w) =
        [.load_initialization_in_progress 0, .store_initialization_in_progress 1] ++ held ++
          [.store_initialization_in_progress 0] ++ released ∧
      held ≠ [] ∧
      (∀ e ∈ held, e = .load_initialization_in_progress 1) ∧
      (∀ e ∈ released, e = .load_initialization_in_progress 0) := by
  refine ⟨?_, ?_, ?_, ?_⟩
  · rcases init_cases device w with ⟨hc, he⟩ | ⟨hc, he⟩ | ⟨hc, he⟩ | ⟨hc, he⟩ | ⟨hc, he⟩ |
      ⟨hc, he⟩ | ⟨hc, he⟩
    · exact absurd hfree hc
    all_goals simp [he]
  · rcases init_cases device w with ⟨hc, he⟩ | ⟨hc, he⟩ | ⟨hc, he⟩ | ⟨hc, he⟩ | ⟨hc, he⟩ |
      ⟨hc, he⟩ | ⟨hc, he⟩
    · exact absurd hfree hc
    all_goals simp [eventsOf, he, stores]
  · rcases init_cases device w with ⟨hc, he⟩ | ⟨hc, he⟩ | ⟨hc, he⟩ | ⟨hc, he⟩ | ⟨hc, he⟩ |
      ⟨hc, he⟩ | ⟨hc, he⟩
    · exact absurd hfree hc
    all_goals simp [he]
  · rcases probed_cases device w hfree with ⟨_, he⟩ | ⟨_, he⟩ | ⟨_, he⟩ | ⟨_, he⟩ |
      ⟨_, he⟩ | ⟨_, he⟩
    · refine ⟨by simp [he], by simp [he], List.replicate 3 (.load_initialization_in_progress 1),
        [], ?_, by simp, by simp, by simp⟩
      simp [eventsOf, he, flagAccesses, isFlagAccess, List.replicate]
    · refine ⟨by simp [he], by simp [he], List.replicate 5 (.load_initialization_in_progress 1),
        [], ?_, by simp, by simp, by simp⟩
      simp [eventsOf, he, flagAccesses, isFlagAccess, List.replicate]
    · refine ⟨by simp [he], by simp [he], List.replicate 7 (.load_initialization_in_progress 1),
        [], ?_, by simp, by simp, by simp⟩
      simp [eventsOf, he, flagAccesses, isFlagAccess, List.replicate]
    · refine ⟨by simp [he], by simp [he], List.replicate 10 (.load_initialization_in_progress 1),
        [.load_initialization_in_progress 0], ?_, by simp, by simp, by simp⟩
      simp [eventsOf, he, flagAccesses, isFlagAccess, List.replicate]
    · refine ⟨by simp [he], by simp [he], List.replicate 13 (.load_initialization_in_progress 1),
        [.load_initialization_in_progress 0], ?_, by simp, by simp, by simp⟩
      simp [eventsOf, he, flagAccesses, isFlagAccess, List.replicate]
    · refine ⟨by simp [he], by simp [he], List.replicate 13 (.load_initialization_in_progress 1),
        [.load_initialization_in_progress 0], ?_, by simp, by simp, by simp⟩
      simp [eventsOf, he, flagAccesses, isFlagAccess, List.replicate]

/-- Witness of C3 on a host where every call succeeds. -/
theorem guard_release_witness :
    hostAllSucceed.initialization_in_progress = 0 ∧
    stores (eventsOf (Daemon.InitializeUSBPreDevice 7) hostAllSucceed) = [1, 0] ∧
    (Daemon.InitializeUSBPreDevice 7 hostAllSucceed).2.initialization_in_progress = 0 ∧
    (flagAccesses (eventsOf (Reentrant.InitializeUSBPreDevice probingHost 7)
        hostAllSucceed)).count (.load_initialization_in_progress 1) = 13 := by
  have h := guard_release 7 hostAllSucceed rfl
  exact ⟨rfl, h.2.1, h.2.2.1, by decide⟩

/-- C4, handle lifecycle.  For every state of the flag and every result of every call,
`InitializeUSBPreDevice` returns, and in what it did: the handles passed to
`USBDeviceClose` are exactly the handles on which `USBDeviceOpen` returned success, of
which there is at most one (so an opened handle is closed once, and nothing is closed
when the open did not succeed or did not happen); and from the `USBDeviceClose` call on,
there is no control transfer and no open. -/
theorem handle_lifecycle (device : io_service_t) (w : World) :
    (Daemon.InitializeUSBPreDevice device w).1 = some () ∧
    closed (eventsOf (Daemon.InitializeUSBPreDevice device) w) =
      opened (eventsOf (Daemon.InitializeUSBPreDevice device) w) ∧
    (opened (eventsOf (Daemon.InitializeUSBPreDevice device) w)).length ≤ 1 ∧
    ((eventsOf (Daemon.InitializeUSBPreDevice device) w).dropWhile
      (fun e => !isClose e)).all (fun e => !usesHandle e) = true := by
  rcases init_cases device w with ⟨hc, he⟩ | ⟨hc, he⟩ | ⟨hc, he⟩ | ⟨hc, he⟩ | ⟨hc, he⟩ |
    ⟨hc, he⟩ | ⟨hc, he⟩ <;>
    simp [eventsOf, he, closed, opened, isClose, usesHandle, kIOReturnSuccess, hc,
      List.dropWhile]

/-- C5, guard denial.  A call of `InitializeUSBPreDevice` entered with the flag set
returns having read the flag and logged that it skips the device, and nothing else: the
flag, the host's pending answers and the rest of the state are as before. -/
theorem guard_denial (device : io_service_t) (w : World)
    (hbusy : w.initialization_in_progress ≠ 0) :
    Daemon.InitializeUSBPreDevice device w =
      (some (), { w with trace := w.trace ++
        [.load_initialization_in_progress w.initialization_in_progress, skipped] }) := by
  rcases init_cases device w with ⟨_, he⟩ | ⟨hc, _⟩ | ⟨hc, _⟩ | ⟨hc, _⟩ | ⟨hc, _⟩ |
    ⟨hc, _⟩ | ⟨hc, _⟩
  · simpa [skipped] using he
  all_goals exact absurd hc.1 hbusy

/-- Witness of C5 on a host whose flag is set. -/
theorem guard_denial_witness :
    hostFlagSet.initialization_in_progress ≠ 0 ∧
    Daemon.InitializeUSBPreDevice 7 hostFlagSet =
      (some (), { hostFlagSet with trace := hostFlagSet.trace ++
        [.load_initialization_in_progress hostFlagSet.initialization_in_progress,
         skipped] }) :=
  ⟨by decide, guard_denial 7 hostFlagSet (by decide)⟩

/-- C7, open failure.  In a call of `InitializeUSBPreDevice` entered with the flag
clear, if one of the three open steps gives a result the function treats as a failure,
then the call returns with the flag clear, having made no control transfer and no delay,
and without entering `InitializePICController`. -/
theorem open_failure (device : io_service_t) (w : World)
    (hfree : w.initialization_in_progress = 0)
    (hfail : (eventsOf (Daemon.InitializeUSBPreDevice device) w).any openStepFailed = true) :
    (Daemon.InitializeUSBPreDevice device w).1 = some () ∧
    handshake (eventsOf (Daemon.InitializeUSBPreDevice device) w) = [] ∧
    picStarted ∉ eventsOf (Daemon.InitializeUSBPreDevice device) w ∧
    (Daemon.InitializeUSBPreDevice device w).2.initialization_in_progress = 0 := by
  rcases init_cases device w with ⟨hc, he⟩ | ⟨hc, he⟩ | ⟨hc, he⟩ | ⟨hc, he⟩ | ⟨hc, he⟩ |
    ⟨hc, he⟩ | ⟨hc, he⟩
  · exact absurd hfree hc
  · simp [eventsOf, he, handshake, isHandshake, picStarted]
  · simp [eventsOf, he, handshake, isHandshake, picStarted]
  · simp [eventsOf, he, handshake, isHandshake, picStarted]
  all_goals
    simp [eventsOf, he, openStepFailed, KERN_SUCCESS, kIOReturnSuccess, NULL, hc] at hfail

/-- Witness of C7 on a host where `USBDeviceOpen` fails. -/
theorem open_failure_witness :
    hostOpenFails.initialization_in_progress = 0 ∧
    (eventsOf (Daemon.InitializeUSBPreDevice 7) hostOpenFails).any openStepFailed = true ∧
    ((Daemon.InitializeUSBPreDevice 7 hostOpenFails).1 = some () ∧
     handshake (eventsOf (Daemon.InitializeUSBPreDevice 7) hostOpenFails) = [] ∧
     picStarted ∉ eventsOf (Daemon.InitializeUSBPreDevice 7) hostOpenFails ∧
     (Daemon.InitializeUSBPreDevice 7 hostOpenFails).2.initialization_in_progress = 0) :=
  ⟨rfl, by decide, open_failure 7 hostOpenFails rfl (by decide)⟩

/-! ## The monitor loop -/

/-- C8, per-device processing.  For every list of objects the iterator yields (none of
them `IO_OBJECT_NULL`), every state of the flag and every result of every call,
`DeviceAddedCallback` returns, and what it adds to the trace is one `loopTurn` per
object, in iterator order, followed by the `IOIteratorNext` that ends the loop.  A turn
is: `IOIteratorNext` yielding the object, the arrival log line, `sleep(1)`, then the
events of exactly one call of `InitializeUSBPreDevice` on that object (which contain one
read of the flag, no settle delay, no release of an object, and no open attempt on
another device), then `IOObjectRelease` on the object. -/
theorem monitor_loop (devices : List io_service_t)
    (hvalid : ∀ d ∈ devices, d ≠ IO_OBJECT_NULL) (w : World) :
    ∃ runs : List (List Event),
      (Daemon.DeviceAddedCallback devices w).1 = some () ∧
      (Daemon.DeviceAddedCallback devices w).2.trace =
        w.trace ++ (List.zipWith loopTurn devices runs).flatten ++
          [.IOIteratorNext IO_OBJECT_NULL] ∧
      List.Forall₂
        (fun d run => IsRunOf d run ∧ run.all (inRun d) = true ∧ (loads run).length = 1)
        devices runs := by
  induction devices generalizing w with
  | nil => exact ⟨[], by simp [callback_nil], by simp [callback_nil], List.Forall₂.nil⟩
  | cons d ds ih =>
    have hd : d ≠ IO_OBJECT_NULL := hvalid d (List.mem_cons_self _ _)
    have hds : ∀ x ∈ ds, x ≠ IO_OBJECT_NULL := fun x hx => hvalid x (List.mem_cons_of_mem _ hx)
    obtain ⟨w1, run, he, ht, hin, hl, _⟩ := init_summary d
      { w with trace := w.trace ++
          [.IOIteratorNext d, .syslog LOG_NOTICE "USBPre: Device arrival detected" [],
           .sleep 1] }
    obtain ⟨runs, h1, h2, h3⟩ := ih hds { w1 with trace := w1.trace ++ [.IOObjectRelease d] }
    have hstep : Daemon.DeviceAddedCallback (d :: ds) w =
        Daemon.DeviceAddedCallback ds { w1 with trace := w1.trace ++ [.IOObjectRelease d] } := by
      rw [callback_cons _ _ _ hd]
      simp only [Prog.andThen, he, IOObjectRelease, emit]
    have hrun : IsRunOf d run := ⟨_, by rw [he], by rw [he]; exact ht⟩
    refine ⟨run :: runs, ?_, ?_, List.Forall₂.cons ⟨hrun, hin, by simp [hl]⟩ h3⟩
    · rw [hstep]
      exact h1
    · rw [hstep, h2]
      simp [ht, loopTurn]

/-- Witness of C8: two devices on a host where every call succeeds. -/
theorem monitor_loop_witness :
    (∀ d ∈ [7, 9], d ≠ IO_OBJECT_NULL) ∧
    ∃ runs : List (List Event),
      (Daemon.DeviceAddedCallback [7, 9] hostAllSucceed).1 = some () ∧
      (Daemon.DeviceAddedCallback [7, 9] hostAllSucceed).2.trace =
        hostAllSucceed.trace ++ (List.zipWith loopTurn [7, 9] runs).flatten ++
          [.IOIteratorNext IO_OBJECT_NULL] ∧
      List.Forall₂
        (fun d run => IsRunOf d run ∧ run.all (inRun d) = true ∧ (loads run).length = 1)
        [7, 9] runs :=
  ⟨by decide, monitor_loop [7, 9] (by decide) hostAllSucceed⟩

/-! ## Two arrivals, the second during the delay of the first -/

/-- C6, back-to-back arrivals.  Let the callback run for the object `first` with the
flag clear, on the host that delivers the arrival of `second` by re-entering
`DeviceAddedCallback` while the daemon is in `sleep(5)`, and let that delay be reached.
Then, for every result of every call: the callback returns with the flag clear; what it
adds to the trace is what it adds on a host that delivers nothing, with the events of
the dropped arrival of `second` (its loop turn, in which the flag is read as `1` and the
skip line is logged, and nothing else) inserted right after the `sleep(5)` event, so the
first run goes on as if nothing had been delivered; the transfers in total are one
`0x81` transfer followed by one `0xC0` transfer; the only open attempt is on `first`;
and the flag is written twice, `1` then `0`, and read twice, as `0` by the first run and
as `1` by the second arrival, so no second run is ever started. -/
theorem back_to_back_arrivals (first second : io_service_t)
    (hfirst : first ≠ IO_OBJECT_NULL) (hsecond : second ≠ IO_OBJECT_NULL) (w : World)
    (hfree : w.initialization_in_progress = 0)
    (hdelay : Event.sleep 5 ∈
      eventsOf (Reentrant.DeviceAddedCallback (deliveringHost [second]) [first]) w) :
    (Reentrant.DeviceAddedCallback (deliveringHost [second]) [first] w).1 = some () ∧
    (Reentrant.DeviceAddedCallback (deliveringHost [second]) [first]
      w).2.initialization_in_progress = 0 ∧
    (∃ before rest : List Event,
      eventsOf (Daemon.DeviceAddedCallback [first]) w = before ++ [.sleep 5] ++ rest ∧
      eventsOf (Reentrant.DeviceAddedCallback (deliveringHost [second]) [first]) w =
        before ++ [.sleep 5] ++ droppedArrival second ++ rest) ∧
    transfers (eventsOf (Reentrant.DeviceAddedCallback (deliveringHost [second]) [first]) w) =
      [command 0x81, command 0xC0] ∧
    openAttempts (eventsOf (Reentrant.DeviceAddedCallback (deliveringHost [second]) [first])
      w) = [first] ∧
    stores (eventsOf (Reentrant.DeviceAddedCallback (deliveringHost [second]) [first]) w) =
      [1, 0] ∧
    loads (eventsOf (Reentrant.DeviceAddedCallback (deliveringHost [second]) [first]) w) =
      [0, 1] := by
  rcases delivered_cases first second w hfirst hsecond hfree with
    ⟨_, he, _⟩ | ⟨_, he, _⟩ | ⟨_, he, _⟩ | ⟨_, he, _⟩ | ⟨_, he, hp⟩ | ⟨_, he, hp⟩
  · simp [eventsOf, he] at hdelay
  · simp [eventsOf, he] at hdelay
  · simp [eventsOf, he] at hdelay
  · simp [eventsOf, he] at hdelay
  · refine ⟨by simp [he], by simp [he], ?_, by simp [eventsOf, he, transfers],
      by simp [eventsOf, he, openAttempts], by simp [eventsOf, he, stores],
      by simp [eventsOf, he, loads]⟩
    refine ⟨[.IOIteratorNext first, .syslog LOG_NOTICE "USBPre: Device arrival detected" [],
        .sleep 1, .load_initialization_in_progress 0, .store_initialization_in_progress 1,
        .syslog LOG_INFO "USBPre: Device detected, opening interface" [],
        .IOCreatePlugInInterfaceForService first (w.answers w.asked).ret
          (w.answers w.asked).out,
        .QueryInterface (w.answers w.asked).out (w.answers (w.asked + 1)).ret
          (w.answers (w.asked + 1)).out,
        .PlugInRelease (w.answers w.asked).out,
        .USBDeviceOpen (w.answers (w.asked + 1)).out (w.answers (w.asked + 2)).ret,
        picStarted,
        .DeviceRequest (w.answers (w.asked + 1)).out (command 0x81)
          (w.answers (w.asked + 3)).ret,
        .syslog LOG_INFO "USBPre: Command 1 (0x81) succeeded" []],
      [.DeviceRequest (w.answers (w.asked + 1)).out (command 0xC0)
          (w.answers (w.asked + 4)).ret,
        .syslog LOG_ERR "USBPre: Command 2 failed: 0x%08x" [(w.answers (w.asked + 4)).ret],
        .USBDeviceClose (w.answers (w.asked + 1)).out, .DeviceRelease (w.answers (w.asked + 1)).out,
        .store_initialization_in_progress 0,
        .syslog LOG_ERR "USBPre: Initialization failed: 0x%08x" [(w.answers (w.asked + 4)).ret],
        .IOObjectRelease first, .IOIteratorNext IO_OBJECT_NULL], ?_, ?_⟩
    · simp [eventsOf, hp, picStarted]
    · simp [eventsOf, he, picStarted, droppedArrival, loopTurn, skipped]
  · refine ⟨by simp [he], by simp [he], ?_, by simp [eventsOf, he, transfers],
      by simp [eventsOf, he, openAttempts], by simp [eventsOf, he, stores],
      by simp [eventsOf, he, loads]⟩
    refine ⟨[.IOIteratorNext first, .syslog LOG_NOTICE "USBPre: Device arrival detected" [],
        .sleep 1, .load_initialization_in_progress 0, .store_initialization_in_progress 1,
        .syslog LOG_INFO "USBPre: Device detected, opening interface" [],
        .IOCreatePlugInInterfaceForService first (w.answers w.asked).ret
          (w.answers w.asked).out,
        .QueryInterface (w.answers w.asked).out (w.answers (w.asked + 1)).ret
          (w.answers (w.asked + 1)).out,
        .PlugInRelease (w.answers w.asked).out,
        .USBDeviceOpen (w.answers (w.asked + 1)).out (w.answers (w.asked + 2)).ret,
        picStarted,
        .DeviceRequest (w.answers (w.asked + 1)).out (command 0x81)
          (w.answers (w.asked + 3)).ret,
        .syslog LOG_INFO "USBPre: Command 1 (0x81) succeeded" []],
      [.DeviceRequest (w.answers (w.asked + 1)).out (command 0xC0)
          (w.answers (w.asked + 4)).ret,
        .syslog LOG_NOTICE "USBPre: PIC initialization complete (Command 2: 0xC0)" [],
        .USBDeviceClose (w.answers (w.asked + 1)).out, .DeviceRelease (w.answers (w.asked + 1)).out,
        .store_initialization_in_progress 0,
        .syslog LOG_NOTICE "USBPre: Successfully initialized - device ready" [],
        .IOObjectRelease first, .IOIteratorNext IO_OBJECT_NULL], ?_, ?_⟩
    · simp [eventsOf, hp, picStarted]
    · simp [eventsOf, he, picStarted, droppedArrival, loopTurn, skipped]

/-- Witness of C6: device 7 arrives, device 9 arrives during its delay, on a host where
every call succeeds. -/
theorem back_to_back_arrivals_witness :
    (7 : io_service_t) ≠ IO_OBJECT_NULL ∧ (9 : io_service_t) ≠ IO_OBJECT_NULL ∧
    hostAllSucceed.initialization_in_progress = 0 ∧
    Event.sleep 5 ∈
      eventsOf (Reentrant.DeviceAddedCallback (deliveringHost [9]) [7]) hostAllSucceed ∧
    transfers (eventsOf (Reentrant.DeviceAddedCallback (deliveringHost [9]) [7])
      hostAllSucceed) = [command 0x81, command 0xC0] ∧
    openAttempts (eventsOf (Reentrant.DeviceAddedCallback (deliveringHost [9]) [7])
      hostAllSucceed) = [7] := by
  have h := back_to_back_arrivals 7 9 (by decide) (by decide) hostAllSucceed rfl
    sample_delay_reached
  exact ⟨by decide, by decide, rfl, sample_delay_reached, h.2.2.2.1, h.2.2.2.2.1⟩

/-- C10, the guard under serial delivery.  Starting with the flag clear, for every
finite sequence of callbacks run one after the other, each on a list of objects none of
which is `IO_OBJECT_NULL`, and for every result of every call: the sequence returns with
the flag clear; every read of the flag (there is one, at the entry of each call of
`InitializeUSBPreDevice`) yields `0`; the "already in progress, skipping" line is never
logged; and the open attempts are exactly one per object, in the order in which the
iterators yield them. -/
theorem serial_guard_never_set (callbacks : List (List io_service_t))
    (hvalid : ∀ it ∈ callbacks, ∀ d ∈ it, d ≠ IO_OBJECT_NULL) (w : World)
    (hfree : w.initialization_in_progress = 0) :
    (Daemon.serialCallbacks callbacks w).1 = some () ∧
    (Daemon.serialCallbacks callbacks w).2.initialization_in_progress = 0 ∧
    loads (eventsOf (Daemon.serialCallbacks callbacks) w) =
      List.replicate callbacks.flatten.length 0 ∧
    skipped ∉ eventsOf (Daemon.serialCallbacks callbacks) w ∧
    openAttempts (eventsOf (Daemon.serialCallbacks callbacks) w) = callbacks.flatten := by
  obtain ⟨w1, es, h1, h2, h3, h4, h5, h6⟩ := serial_free callbacks hvalid w hfree
  have he : eventsOf (Daemon.serialCallbacks callbacks) w = es := by
    simp [eventsOf, h1, h2]
  rw [he, h1]
  exact ⟨rfl, h3, h4, h6, h5⟩

/-- Witness of C10: the priming callback finds one device, a later callback two more,
on a host where every call succeeds. -/
theorem serial_guard_never_set_witness :
    (∀ it ∈ [[7], [8, 9]], ∀ d ∈ it, d ≠ IO_OBJECT_NULL) ∧
    hostAllSucceed.initialization_in_progress = 0 ∧
    ((Daemon.serialCallbacks [[7], [8, 9]] hostAllSucceed).1 = some () ∧
     (Daemon.serialCallbacks [[7], [8, 9]] hostAllSucceed).2.initialization_in_progress = 0 ∧
     loads (eventsOf (Daemon.serialCallbacks [[7], [8, 9]]) hostAllSucceed) =
       List.replicate [[7], [8, 9]].flatten.length 0 ∧
     skipped ∉ eventsOf (Daemon.serialCallbacks [[7], [8, 9]]) hostAllSucceed ∧
     openAttempts (eventsOf (Daemon.serialCallbacks [[7], [8, 9]]) hostAllSucceed) =
       [[7], [8, 9]].flatten) :=
  ⟨by decide, rfl, serial_guard_never_set [[7], [8, 9]] (by decide) hostAllSucceed rfl⟩

/-! ## The exit code of the one-shot tool -/

/-- The exit code of the tool when no plug-in creation returns success with a `NULL`
plug-in pointer: `main` returns `0` or `1`, and `0` exactly when the device was found,
the open succeeded and both transfers returned success. -/
theorem main_exit_code (w : World)
    (hplug : (eventsOf Cli.main w).any createdNull = false) :
    ∃ code : Int, (Cli.main w).1 = some code ∧ (code = 0 ∨ code = 1) ∧
      (code = 0 ↔
        ((eventsOf Cli.main w).any foundDevice = true ∧
         (eventsOf Cli.main w).any openSucceeded = true ∧
         (eventsOf Cli.main w).any (transferSucceeded 0x81) = true ∧
         (eventsOf Cli.main w).any (transferSucceeded 0xC0) = true)) := by
  rcases main_cases w with ⟨hc, he⟩ | ⟨hc, he⟩ | ⟨hc, he⟩ | ⟨hc, he⟩ | ⟨hc, he⟩ |
      ⟨hc, he⟩ | ⟨hc, he⟩ | ⟨hc, he⟩ | ⟨hc, he⟩
  case inr.inr.inr.inl =>
    simp [eventsOf, he, createdNull, kIOReturnSuccess, NULL, hc] at hplug
  all_goals
    simp [eventsOf, he, foundDevice, openSucceeded, transferSucceeded, command,
      kIOReturnSuccess, IO_OBJECT_NULL, hc]

/-- C9, at the failing input.  On a host where the device is found and
`IOCreatePlugInInterfaceForService` returns `kIOReturnSuccess` while leaving the plug-in
pointer `NULL`, `open_device` of the tool goes on to `(*plugin)->QueryInterface`: `main`
yields no exit code, and the last call it made is that plug-in creation.  The daemon's
`InitializeUSBPreDevice`, given the same answer to its plug-in creation, returns. -/
theorem main_null_plugin_no_exit_code :
    (Cli.main hostNullPlugIn).1 = none ∧
    (eventsOf Cli.main hostNullPlugIn).getLast? =
      some (.IOCreatePlugInInterfaceForService 1 kIOReturnSuccess NULL) ∧
    (Daemon.InitializeUSBPreDevice 1 { hostNullPlugIn with asked := 2 }).1 = some () := by
  decide

end UsbPre
